import Mathlib

/-!
# Verification of the `checker` availability monitor

A shallow embedding, in Lean 4, of the Python sources under `app/`:
`checker.py` (per-target availability state machine), `notifier.py`
(Telegram notification sink), `config.py` (configuration loading and
validation) and the relevant glue in `main.py`.

Modelling conventions:
* Python `int` is embedded as `Int` (arbitrary precision, signed).
* Python `float` values appearing in configuration are embedded as exact
  rationals (`Rat`); the only operation the code performs on them is the
  comparison `<= 0`, which is exact.
* The network is an oracle: an HTTP GET either yields a final response with
  a status code, or raises an exception carrying a type name and message.
* `async` sequencing is irrelevant here (one cycle runs its targets
  sequentially), so coroutines are embedded as pure functions.
-/

/-- The characters Python's `str.isspace` (and hence the no-argument
`str.strip`) treats as whitespace: `\t`-`\r` (0x09-0x0d), the file/group/
record/unit separators (0x1c-0x1f), space, NEL (0x85), NBSP (0xa0), Ogham
space mark (0x1680), the typographic spaces 0x2000-0x200a, line and
paragraph separators (0x2028, 0x2029), narrow NBSP (0x202f), medium
mathematical space (0x205f) and ideographic space (0x3000). -/
def pyIsSpace (c : Char) : Bool :=
  let n := c.toNat
  (9 ≤ n && n ≤ 13) || (28 ≤ n && n ≤ 32) || n = 133 || n = 160 ||
    n = 5760 || (8192 ≤ n && n ≤ 8202) || n = 8232 || n = 8233 ||
    n = 8239 || n = 8287 || n = 12288

/-- Python `str.strip()` (with no argument): remove Python whitespace from
both ends.  Implemented over the character list so that it reduces in the
kernel, unlike `String.trim`. -/
def pyStrip (s : String) : String :=
  String.mk (((s.data.dropWhile pyIsSpace).reverse.dropWhile
    pyIsSpace).reverse)

/-- Python `str.startswith(p)`.  Implemented over the character lists so
that it reduces in the kernel, unlike `String.startsWith`. -/
def strStartsWith (s p : String) : Bool :=
  p.data.isPrefixOf s.data

namespace Checker

/-- Outcome of the single `httpx` GET performed by `_request_status`:
either a final response (after redirects) with its status code, or an
exception raised during the request, carrying the exception type name and
its message. -/
inductive HttpOutcome where
  | response (status : Int)
  | exc (excName : String) (msg : String)
deriving Repr, DecidableEq

/-- `app/config.py` : `TargetConfig` (frozen dataclass). `timeout_seconds`
is a Python float, embedded as an exact rational. -/
structure TargetConfig where
  name : String
  url : String
  enabled : Bool := true
  timeout_seconds : Rat := 5
  failure_threshold : Int := 1
deriving Repr, DecidableEq

/-- `app/checker.py` : `TargetState` (mutable dataclass, one per target key). -/
structure TargetState where
  consecutive_failures : Int := 0
  is_down : Bool := false
deriving Repr, DecidableEq

/-- A fresh `TargetState()` as constructed by `setdefault`. -/
def TargetState.fresh : TargetState := {}

/-- One notification handed to `self._notifier.send`, tagged by the call
site that emitted it (the `[RECOVERED]` branch or the `[DOWN]` branch of
`_check_target`), carrying the exact message string. -/
inductive AlertEvent where
  | recovered (message : String)
  | down (message : String)
deriving Repr, DecidableEq

def AlertEvent.message : AlertEvent → String
  | .recovered m => m
  | .down m => m

def AlertEvent.isDown : AlertEvent → Bool
  | .recovered _ => false
  | .down _ => true

def AlertEvent.isRecovered : AlertEvent → Bool
  | .recovered _ => true
  | .down _ => false

/-- `AvailabilityChecker._message_prefix` : `""` when `self._checker_name`
is falsy (`None` or the empty string), else `"[" + name + "] "`. -/
def message_label (checker_name : Option String) : String :=
  match checker_name with
  | none => ""
  | some n => if n = "" then "" else "[" ++ n ++ "] "

/-- The composite state key `f"{target.name}|{target.url}"` used by
`_check_target`. -/
def stateKey (target : TargetConfig) : String :=
  target.name ++ "|" ++ target.url

/-- The `[RECOVERED]` message built in `_check_target`. -/
def recoveredMessage (checker_name : Option String) (target : TargetConfig) : String :=
  message_label checker_name ++ "[RECOVERED] " ++ target.name ++
    " is back online: " ++ target.url

/-- The `[DOWN]` message built in `_check_target`: `reason` is echoed
verbatim when it starts with `status_code=`, otherwise wrapped as
`error=...`. -/
def downMessage (checker_name : Option String) (target : TargetConfig)
    (reason : String) (failures : Int) : String :=
  let response_info := if strStartsWith reason "status_code=" then reason
    else "error=" ++ reason
  message_label checker_name ++ "[DOWN] " ++ target.name ++
    " is unavailable: " ++ target.url ++ ". Response: " ++ response_info ++
    ". Failures: " ++ toString failures ++ "/" ++ toString target.failure_threshold

/-- The body of `_check_target` after the probe result `(is_ok, reason)`
is in hand: updates the target's `TargetState` and returns the
notifications sent, in order.  Mirrors `app/checker.py` lines 51-80. -/
def checkStep (checker_name : Option String) (target : TargetConfig)
    (state : TargetState) (is_ok : Bool) (reason : String) :
    TargetState × List AlertEvent :=
  if is_ok then
    if state.is_down then
      ({ is_down := false, consecutive_failures := 0 },
        [AlertEvent.recovered (recoveredMessage checker_name target)])
    else
      ({ state with consecutive_failures := 0 }, [])
  else
    let failures := state.consecutive_failures + 1
    let state' : TargetState := { state with consecutive_failures := failures }
    if !state'.is_down && target.failure_threshold ≤ failures then
      ({ state' with is_down := true },
        [AlertEvent.down (downMessage checker_name target reason failures)])
    else
      (state', [])

/-- Iterates `checkStep` over a list of probe results for one target,
accumulating the notifications in emission order. -/
def runChecks (checker_name : Option String) (target : TargetConfig)
    (state : TargetState) : List (Bool × String) → TargetState × List AlertEvent
  | [] => (state, [])
  | (is_ok, reason) :: rest =>
    let out := checkStep checker_name target state is_ok reason
    let out' := runChecks checker_name target out.1 rest
    (out'.1, out.2 ++ out'.2)

/-- Number of `[DOWN]` notifications in a list of events. -/
def downCount (events : List AlertEvent) : Nat :=
  (events.filter AlertEvent.isDown).length

/-- Number of `[RECOVERED]` notifications in a list of events. -/
def recoveredCount (events : List AlertEvent) : Nat :=
  (events.filter AlertEvent.isRecovered).length

/-- A run of `n` consecutive failed probes, all with the same reason. -/
def failRun (reason : String) (n : Nat) : List (Bool × String) :=
  List.replicate n (false, reason)

/-- The invariant of claim C6, for a fixed target configuration. -/
def StateInv (t : TargetConfig) (s : TargetState) : Prop :=
  0 ≤ s.consecutive_failures ∧
    (s.is_down = true → t.failure_threshold ≤ s.consecutive_failures)

/-- `AvailabilityChecker._request_status` (`app/checker.py` lines 82-90),
applied to the oracle outcome of its single `httpx` GET: a final response
maps to `(status == 200, "status_code=<N>")`; any exception is caught in
the function's own `except` clause and mapped to
`(False, f"TypeName: message")`.  The embedding is a total function: no
outcome makes the probe raise. -/
def requestStatus : HttpOutcome → Bool × String
  | .response status =>
    if status = 200 then (true, "status_code=200")
    else (false, "status_code=" ++ toString status)
  | .exc excName msg => (false, excName ++ ": " ++ msg)

/-- `self._states : dict[str, TargetState]`, embedded as an association
list in dict insertion order (first occurrence of a key is the binding;
the checker never inserts a duplicate key). -/
abbrev StatesMap := List (String × TargetState)

/-- Dict lookup: the binding of `key`, if present. -/
def statesFind : StatesMap → String → Option TargetState
  | [], _ => none
  | (k, v) :: rest, key => if k = key then some v else statesFind rest key

/-- Dict write: update the binding of `key` in place, or append a new
binding at the end (Python dicts preserve insertion order). -/
def statesStore : StatesMap → String → TargetState → StatesMap
  | [], key, v => [(key, v)]
  | (k, v0) :: rest, key, v =>
    if k = key then (k, v) :: rest else (k, v0) :: statesStore rest key v

/-- `_check_target` (`app/checker.py` lines 46-80) acting on the whole
`self._states` dict: `setdefault` the composite key to a fresh state, run
the transition on this target's probe classification, and send each alert
message through the notifier.  The boolean result of
`await self._notifier.send(message)` is discarded by the source, so the
delivery oracle `deliver` is applied per message and recorded but feeds
back into nothing.  Returns (updated states, alerts, delivery attempts). -/
def checkTarget (cn : Option String) (deliver : String → Bool)
    (target : TargetConfig) (states : StatesMap) (outcome : HttpOutcome) :
    StatesMap × List AlertEvent × List (String × Bool) :=
  let key := stateKey target
  let state := (statesFind states key).getD TargetState.fresh
  let pr := requestStatus outcome
  let out := checkStep cn target state pr.1 pr.2
  (statesStore states key out.1, out.2,
    out.2.map (fun e => (e.message, deliver e.message)))

/-- Result of one pass of `check_targets`: final states, the targets that
were actually probed in order, the alerts emitted, and the delivery
attempts made. -/
structure CycleResult where
  states : StatesMap
  probed : List TargetConfig
  alerts : List AlertEvent
  sends : List (String × Bool)
deriving Repr

/-- The `for target in enabled_targets` loop of `check_targets`
(`app/checker.py` lines 43-44): each target in turn is probed (`probe`
gives the network oracle outcome for it) and `_check_target` is applied. -/
def runTargets (cn : Option String) (deliver : String → Bool)
    (probe : TargetConfig → HttpOutcome) :
    StatesMap → List TargetConfig → CycleResult
  | states, [] => ⟨states, [], [], []⟩
  | states, t :: rest =>
    let r := checkTarget cn deliver t states (probe t)
    let r' := runTargets cn deliver probe r.1 rest
    ⟨r'.states, t :: r'.probed, r.2.1 ++ r'.alerts, r.2.2 ++ r'.sends⟩

/-- `check_targets` (`app/checker.py` lines 37-44): filter the argument to
enabled targets; when none remain, log a warning (the returned flag) and
return without probing or mutating anything; otherwise check each enabled
target in order. -/
def checkTargets (cn : Option String) (deliver : String → Bool)
    (probe : TargetConfig → HttpOutcome) (states : StatesMap)
    (targets : List TargetConfig) : CycleResult × Bool :=
  let enabled_targets := targets.filter (fun t => t.enabled)
  if enabled_targets.isEmpty then
    (⟨states, [], [], []⟩, true)
  else
    (runTargets cn deliver probe states enabled_targets, false)

end Checker

namespace PyJson

/-- A JSON value as decoded by `json.loads`.  JSON numbers decode to
Python `int` or `float` depending on their spelling; floats are finite
IEEE doubles, embedded here as exact rationals (the code only ever
compares them with `<= 0`, which is exact). -/
inductive JValue where
  | null
  | bool (b : Bool)
  | int (n : Int)
  | float (q : Rat)
  | str (s : String)
  | arr (items : List JValue)
  | obj (fields : List (String × JValue))
deriving Repr

/-- Python exceptions that the configuration loader can raise. -/
inductive PyError where
  | valueError (msg : String)
  | typeError (msg : String)
  | attributeError (msg : String)
deriving Repr, DecidableEq

/-- Lookup in a decoded JSON object, as Python's `dict` indexing:
`json.loads` builds the dict left to right, a later duplicate key
overriding an earlier one, so the last binding wins. -/
def objGet (fields : List (String × JValue)) (key : String) : Option JValue :=
  match fields with
  | [] => none
  | (k, v) :: rest =>
    match objGet rest key with
    | some v' => some v'
    | none => if k = key then some v else none

/-- Python truthiness of a decoded JSON value (`bool(x)`, `x or y`). -/
def pyTruthy : JValue → Bool
  | .null => false
  | .bool b => b
  | .int n => n != 0
  | .float q => q != 0
  | .str s => !(s.isEmpty)
  | .arr items => !(items.isEmpty)
  | .obj fields => !(fields.isEmpty)

/-- Python `str(...)` of a decoded JSON value.  Exact for `None`,
booleans, integers and strings — the only shapes any theorem below
evaluates it on; the renderings of floats, lists and objects stand in for
CPython's `repr` and are never relied upon. -/
def pyStr : JValue → String
  | .null => "None"
  | .bool true => "True"
  | .bool false => "False"
  | .int n => toString n
  | .float q => toString q
  | .str s => s
  | .arr _ => "[...]"
  | .obj _ => "\x7b...\x7d"

/-- The numeric value of a non-empty all-digit character list. -/
def digitsVal (cs : List Char) : Option Nat :=
  if cs.isEmpty then none
  else if cs.all Char.isDigit then
    some (cs.foldl (fun acc c => acc * 10 + (c.toNat - Char.toNat (Char.ofNat 48))) 0)
  else none

/-- CPython `float(s)` on a string, for the plain decimal forms
`[+-]digits[.digits]`; scientific notation, `inf` and `nan` are mapped to
`none` (treated as a conversion error) — no theorem below exercises those
spellings. -/
def pyFloatOfString (s : String) : Option Rat :=
  let signBody : Int × List Char :=
    match (pyStrip s).data with
    | '-' :: rest => (-1, rest)
    | '+' :: rest => (1, rest)
    | cs => (1, cs)
  let body := signBody.2
  let ip := body.takeWhile (fun c => !(c = '.'))
  let rest := body.dropWhile (fun c => !(c = '.'))
  match rest with
  | [] => (digitsVal ip).map (fun n => ((signBody.1 * n : Int) : Rat))
  | _ :: fp =>
    if fp.any (fun c => c = '.') then none
    else if ip.isEmpty && fp.isEmpty then none
    else
      let ipv : Option Nat := if ip.isEmpty then some 0 else digitsVal ip
      let fpv : Option Nat := if fp.isEmpty then some 0 else digitsVal fp
      match ipv, fpv with
      | some a, some b =>
        some ((signBody.1 : Rat) * ((a : Rat) + (b : Rat) / ((10 : Rat) ^ fp.length)))
      | _, _ => none

/-- CPython `int(s)` on a string: optional sign, then digits (underscore
separators and non-ASCII digits are mapped to `none` — no theorem below
exercises them). -/
def pyIntOfString (s : String) : Option Int :=
  match (pyStrip s).data with
  | '-' :: rest => (digitsVal rest).map (fun n => -(n : Int))
  | '+' :: rest => (digitsVal rest).map (fun n => (n : Int))
  | cs => (digitsVal cs).map (fun n => (n : Int))

/-- CPython `int(x)` on a decoded JSON value: identity on ints, truncation
toward zero on floats, `1/0` on booleans, digit parsing on strings,
`TypeError` otherwise. -/
def pyInt : JValue → Except PyError Int
  | .int n => .ok n
  | .float q => .ok (if 0 ≤ q then ⌊q⌋ else ⌈q⌉)
  | .bool b => .ok (if b then 1 else 0)
  | .str s =>
    match pyIntOfString s with
    | some n => .ok n
    | none => .error (.valueError ("invalid literal for int() with base 10: " ++ s))
  | _ => .error (.typeError "int() argument must be a string or a number")

/-- CPython `float(x)` on a decoded JSON value. -/
def pyFloat : JValue → Except PyError Rat
  | .int n => .ok ((n : Rat))
  | .float q => .ok q
  | .bool b => .ok (if b then 1 else 0)
  | .str s =>
    match pyFloatOfString s with
    | some q => .ok q
    | none => .error (.valueError ("could not convert string to float: " ++ s))
  | _ => .error (.typeError "float() argument must be a string or a number")

end PyJson

namespace Checker

open PyJson

/-- Outcome of the `httpx` POST performed by `TelegramNotifier.send`
(`app/notifier.py` lines 17-30): an exception during the request, a
response whose `.json()` raises, or a response with a status code and a
decoded JSON body. -/
inductive TelegramOutcome where
  | exc
  | badJson (status : Int)
  | response (status : Int) (body : JValue)

/-- `TelegramNotifier.send`, given the oracle outcome of its POST.  The
source wraps everything in `try/except Exception`, so the embedding is a
total function returning the boolean the caller sees: `False` on any
exception, on `raise_for_status` (httpx raises for any non-2xx status),
on an unparseable body, and on a body whose `"ok"` field is falsy or
missing; `True` otherwise. -/
def TelegramNotifier.send : TelegramOutcome → Bool
  | .exc => false
  | .badJson _ => false
  | .response status body =>
    if 200 ≤ status ∧ status < 300 then
      match body with
      | .obj fields => pyTruthy ((objGet fields "ok").getD (.bool false))
      | _ => false
    else
      false

end Checker

namespace Config

open PyJson Checker

/-- `app/config.py` : `TelegramConfig` (frozen dataclass). -/
structure TelegramConfig where
  bot_token : String
  chat_id : String
deriving Repr, DecidableEq

/-- `app/config.py` : `GlobalDefaults` (frozen dataclass). -/
structure GlobalDefaults where
  interval_seconds : Int := 60
  timeout_seconds : Rat := 5
  failure_threshold : Int := 1
deriving Repr, DecidableEq

/-- `app/config.py` : `AppConfig` (frozen dataclass).  Note the source
declares exactly these three fields — in particular no `checker_name`
field — even though `run_service` in `app/main.py` reads
`config.checker_name`. -/
structure AppConfig where
  telegram : TelegramConfig
  defaults : GlobalDefaults
  targets : List TargetConfig
deriving Repr, DecidableEq

/-- A character permitted inside a URL scheme by `urllib.parse`
(`scheme_chars`): ASCII letters, digits, `+`, `-`, `.`. -/
def isSchemeChar (c : Char) : Bool :=
  c.isAlphanum || c = '+' || c = '-' || c = '.'

/-- Splits a character list at the first `':'`, returning the parts before
and after it. -/
def splitAtColon : List Char → Option (List Char × List Char)
  | [] => none
  | c :: rest =>
    if c = ':' then some ([], rest)
    else (splitAtColon rest).map (fun p => (c :: p.1, p.2))

/-- The chars of a netloc: from after the leading `//` up to the first
`/`, `?` or `#` (CPython's `_splitnetloc`). -/
def takeNetloc (cs : List Char) : List Char :=
  cs.takeWhile (fun c => !(c = '/' || c = '?' || c = '#'))

/-- The characters `urlsplit` strips from the left of the URL
(`_WHATWG_C0_CONTROL_OR_SPACE`): the C0 controls and the space, i.e.
codepoints `<= 0x20`. -/
def isC0ControlOrSpace (c : Char) : Bool :=
  c.toNat ≤ 32

/-- The characters `urlsplit` deletes everywhere in the URL
(`_UNSAFE_URL_BYTES_TO_REMOVE`): tab, CR, LF. -/
def isUnsafeUrlByte (c : Char) : Bool :=
  c = '\t' || c = '\r' || c = '\n'

/-- The preprocessing at the top of `urlsplit`: `lstrip` the C0 controls
and the space, then remove every tab, CR and LF. -/
def urlPreprocess (cs : List Char) : List Char :=
  (cs.dropWhile isC0ControlOrSpace).filter (fun c => !(isUnsafeUrlByte c))

/-- The scheme split of `urlsplit`: when the first `:` follows a non-empty
run of scheme characters whose first is an ASCII letter, the part before
it, lowercased, is the scheme and the part after it remains; otherwise the
scheme is empty and the URL is left whole. -/
def urlSchemeSplit (cs : List Char) : List Char × List Char :=
  match splitAtColon cs with
  | some (before, after) =>
    match before with
    | [] => ([], cs)
    | c :: rest =>
      if c.isAlpha && (c :: rest).all isSchemeChar then
        (before.map Char.toLower, after)
      else ([], cs)
  | none => ([], cs)

/-- The netloc characters of `urlsplit`: present exactly when the
remainder after the scheme split starts with `//`, extending to the first
`/`, `?` or `#` (`_splitnetloc`). -/
def urlNetlocChars : List Char → Option (List Char)
  | '/' :: '/' :: rest => some (takeNetloc rest)
  | _ => none

/-- Python `s.split(sep)` for a one-character separator (always returns a
non-empty list; the empty string splits to `[""]`). -/
def splitOnChar (sep : Char) : List Char → List (List Char)
  | [] => [[]]
  | c :: rest =>
    if c = sep then [] :: splitOnChar sep rest
    else
      match splitOnChar sep rest with
      | [] => [[c]]
      | p :: ps => (c :: p) :: ps

/-- `ipaddress._BaseV4._parse_octet` as a validity predicate: non-empty,
ASCII digits only, at most three characters, no leading zero (unless the
octet is exactly `0`), value at most 255. -/
def isIPv4Octet (cs : List Char) : Bool :=
  !cs.isEmpty && cs.all Char.isDigit && cs.length ≤ 3 &&
    (match cs with
     | '0' :: _ :: _ => false
     | _ => true) &&
    (digitsVal cs).getD 256 ≤ 255

/-- `ipaddress.IPv4Address` applied to a string, as a validity predicate:
no `/`, non-empty, and exactly four dot-separated valid octets. -/
def isIPv4Address (cs : List Char) : Bool :=
  !cs.any (fun c => c = '/') && !cs.isEmpty &&
    (let octets := splitOnChar '.' cs
     octets.length = 4 && octets.all isIPv4Octet)

/-- A hexadecimal digit (`ipaddress._HEX_DIGITS`). -/
def isHexDigitChar (c : Char) : Bool :=
  c.isDigit || ('a' ≤ c && c ≤ 'f') || ('A' ≤ c && c ≤ 'F')

/-- `ipaddress._BaseV6._parse_hextet` as a validity predicate: a
non-empty run of at most four hexadecimal digits. -/
def isHextet (cs : List Char) : Bool :=
  !cs.isEmpty && cs.all isHexDigitChar && cs.length ≤ 4

/-- The IPv4-suffix step of `_BaseV6._ip_int_from_string`: when the last
colon-separated part contains a `.`, it must be a valid IPv4 address and
is replaced by two hextets (the replacements `'%x' % ...` are always
valid hextets, so `0` stands in for them); `none` when it is not a valid
IPv4 address.  (`splitOnChar` never returns an empty list, so the `none`
in the first branch is unreachable.) -/
def ipv6ConvertSuffix (parts : List (List Char)) : Option (List (List Char)) :=
  match parts.getLast? with
  | none => none
  | some lastP =>
    if lastP.any (fun c => c = '.') then
      if isIPv4Address lastP then some (parts.dropLast ++ [['0'], ['0']])
      else none
    else some parts

/-- The candidate `::` skip positions of `_ip_int_from_string`: indices of
empty parts, endpoints excluded (`range(1, len(parts) - 1)`). -/
def ipv6EmptyMiddle (parts : List (List Char)) : List Nat :=
  (List.range parts.length).filter
    (fun i => 0 < i && i + 1 < parts.length && (parts.getD i []).isEmpty)

/-- The remainder of `_ip_int_from_string` on the (suffix-converted) part
list, as a validity predicate: at most nine parts; without a `::` skip,
exactly eight parts with non-empty endpoints, all valid hextets; with one
skip, an empty endpoint is permitted only adjacent to the skip
(`parts_hi`/`parts_lo` must drop to zero), at most seven parts are kept,
and every kept part is a valid hextet; two or more skips are invalid. -/
def ipv6PartsValid (parts : List (List Char)) : Bool :=
  if parts.length > 9 then false
  else
    match ipv6EmptyMiddle parts with
    | [] =>
      parts.length = 8 && !(parts.getD 0 []).isEmpty &&
        !(parts.getD (parts.length - 1) []).isEmpty && parts.all isHextet
    | [i] =>
      let headEmpty := (parts.getD 0 []).isEmpty
      let lastEmpty := (parts.getD (parts.length - 1) []).isEmpty
      let parts_hi := if headEmpty then i - 1 else i
      let parts_lo0 := parts.length - i - 1
      let parts_lo := if lastEmpty then parts_lo0 - 1 else parts_lo0
      (!headEmpty || parts_hi = 0) && (!lastEmpty || parts_lo = 0) &&
        parts_hi + parts_lo ≤ 7 &&
        (parts.take parts_hi).all isHextet &&
        (parts.drop (parts.length - parts_lo)).all isHextet
    | _ => false

/-- `_BaseV6._ip_int_from_string` as a validity predicate: non-empty, at
least three colon-separated parts, the optional IPv4 suffix converted,
then the skip/hextet analysis. -/
def isIPv6NoScope (cs : List Char) : Bool :=
  if cs.isEmpty then false
  else
    let parts := splitOnChar ':' cs
    if parts.length < 3 then false
    else
      match ipv6ConvertSuffix parts with
      | none => false
      | some parts2 => ipv6PartsValid parts2

/-- `ipaddress.IPv6Address` applied to a string, as a validity predicate:
no `/`; an optional `%scope` suffix (`_split_scope_id`: the scope must be
non-empty and contain no further `%`); the rest a valid IPv6 literal. -/
def isIPv6Address (cs : List Char) : Bool :=
  if cs.any (fun c => c = '/') then false
  else
    let addr := cs.takeWhile (fun c => !(c = '%'))
    let rest := cs.dropWhile (fun c => !(c = '%'))
    match rest with
    | [] => isIPv6NoScope addr
    | _ :: scope =>
      !scope.isEmpty && !scope.any (fun c => c = '%') && isIPv6NoScope addr

/-- `urllib.parse._check_bracketed_host` as a validity predicate: a host
starting with `v` must match the IPvFuture regex `v[a-fA-F0-9]+\..+` in
full (since `.` is not a hex digit, this says: a non-empty hex run after
the `v`, then a `.`, then a non-empty remainder); any other host must be
accepted by `ipaddress.ip_address` as an IPv6 (and not IPv4) address. -/
def checkBracketedHost (host : List Char) : Bool :=
  match host with
  | 'v' :: rest =>
    !(rest.takeWhile isHexDigitChar).isEmpty &&
      (match rest.dropWhile isHexDigitChar with
       | '.' :: tail => !tail.isEmpty
       | _ => false)
  | _ => !(isIPv4Address host) && isIPv6Address host

/-- Error-propagating sequencing (Python exception propagation). -/
def bindE {α β : Type} (x : Except PyError α) (f : α → Except PyError β) :
    Except PyError β :=
  match x with
  | .error e => .error e
  | .ok a => f a

/-- `urllib.parse.urlparse(value)` restricted to the two fields
`_validate_url` reads, `(scheme, netloc)`, including the `ValueError`s
`urlsplit` itself raises when the netloc has unbalanced brackets
(`Invalid IPv6 URL`) or an invalid bracketed host
(`netloc.partition('[')[2].partition(']')[0]`, the text between the first
`[` and the next `]`).  One check is not modelled: `_checknetloc`'s NFKC
anti-spoofing pass, which can reject a netloc containing non-ASCII
characters; the model treats it as passing, and the spec-side acceptance
predicate below therefore restricts itself to ASCII netlocs. -/
def urlsplitSchemeNetloc (value : String) : Except PyError (String × String) :=
  let split := urlSchemeSplit (urlPreprocess value.data)
  match urlNetlocChars split.2 with
  | none => .ok (String.mk split.1, "")
  | some netloc =>
    let hasOpen := netloc.any (fun c => c = '[')
    let hasClose := netloc.any (fun c => c = ']')
    if (hasOpen && !hasClose) || (hasClose && !hasOpen) then
      .error (.valueError "Invalid IPv6 URL")
    else if hasOpen && hasClose then
      if checkBracketedHost
          (((netloc.dropWhile (fun c => !(c = '['))).drop 1).takeWhile
            (fun c => !(c = ']'))) then
        .ok (String.mk split.1, String.mk netloc)
      else .error (.valueError "bracketed host is invalid")
    else .ok (String.mk split.1, String.mk netloc)

/-- `app/config.py` : `_validate_url`: parses with `urlparse` (whose
`ValueError`s propagate uncaught), returns the value unchanged when the
parsed scheme is `http`/`https` and the netloc is non-empty, else raises
`ValueError`. -/
def validate_url (value : String) : Except PyError String :=
  bindE (urlsplitSchemeNetloc value) fun p =>
    if (p.1 = "http" ∨ p.1 = "https") ∧ p.2 ≠ "" then .ok value
    else .error (.valueError ("Invalid URL: " ++ value))

/-- `app/config.py` : `_require_positive_number`, at type `int`. -/
def require_positive_int (numName : String) (value : Int) : Except PyError Int :=
  if value ≤ 0 then
    .error (.valueError (numName ++ " must be > 0, got " ++ toString value))
  else .ok value

/-- `app/config.py` : `_require_positive_number`, at type `float`. -/
def require_positive_rat (numName : String) (value : Rat) : Except PyError Rat :=
  if value ≤ 0 then
    .error (.valueError (numName ++ " must be > 0, got " ++ toString value))
  else .ok value

/-- `x.get(key, dflt)` where `x` may be any decoded value (the result of
`raw.get(...) or {}`): raises `AttributeError` when `x` is not a dict,
exactly as CPython does. -/
def dictGetD (v : JValue) (key : String) (dflt : JValue) : Except PyError JValue :=
  match v with
  | .obj fields => .ok ((objGet fields key).getD dflt)
  | _ => .error (.attributeError "object has no attribute get")

/-- `load_config` lines 55-60: read and strip the credentials, failing
when either is blank. -/
def parseTelegram (rootFields : List (String × JValue)) :
    Except PyError TelegramConfig :=
  let telegramRaw0 := (objGet rootFields "telegram").getD .null
  let telegramRaw := if pyTruthy telegramRaw0 then telegramRaw0 else .obj []
  bindE (dictGetD telegramRaw "bot_token" (.str "")) fun tokenV =>
  bindE (dictGetD telegramRaw "chat_id" (.str "")) fun chatV =>
  let bot_token := pyStrip (pyStr tokenV)
  let chat_id := pyStrip (pyStr chatV)
  if bot_token.isEmpty || chat_id.isEmpty then
    .error (.valueError "telegram.bot_token and telegram.chat_id are required")
  else .ok ⟨bot_token, chat_id⟩

/-- `load_config` lines 62-69: build `GlobalDefaults`, converting each
field and requiring it positive. -/
def parseDefaults (rootFields : List (String × JValue)) :
    Except PyError GlobalDefaults :=
  let defaultsRaw0 := (objGet rootFields "global_defaults").getD .null
  let defaultsRaw := if pyTruthy defaultsRaw0 then defaultsRaw0 else .obj []
  bindE (dictGetD defaultsRaw "interval_seconds" (.int 60)) fun intervalV =>
  bindE (pyInt intervalV) fun interval0 =>
  bindE (require_positive_int "interval_seconds" interval0) fun interval =>
  bindE (dictGetD defaultsRaw "timeout_seconds" (.int 5)) fun timeoutV =>
  bindE (pyFloat timeoutV) fun timeout0 =>
  bindE (require_positive_rat "timeout_seconds" timeout0) fun timeout =>
  bindE (dictGetD defaultsRaw "failure_threshold" (.int 1)) fun thresholdV =>
  bindE (pyInt thresholdV) fun threshold0 =>
  bindE (require_positive_int "failure_threshold" threshold0) fun threshold =>
  .ok ⟨interval, timeout, threshold⟩

/-- `load_config` lines 76-97, one iteration: elaborate one entry of the
target list at a given index. -/
def parseTarget (defaults : GlobalDefaults) (index : Nat) (item : JValue) :
    Except PyError TargetConfig :=
  match item with
  | .obj itemFields =>
    let nameRaw := pyStrip (pyStr ((objGet itemFields "name").getD (.str "")))
    let tname := if nameRaw.isEmpty then "target-" ++ toString (index + 1) else nameRaw
    bindE (validate_url (pyStrip (pyStr ((objGet itemFields "url").getD (.str ""))))) fun url =>
    let enabled := pyTruthy ((objGet itemFields "enabled").getD (.bool true))
    bindE (pyFloat ((objGet itemFields "timeout_seconds").getD
        (.float defaults.timeout_seconds))) fun timeout =>
    bindE (require_positive_rat ("targets[" ++ toString index ++ "].timeout_seconds")
        timeout) fun _ =>
    bindE (pyInt ((objGet itemFields "failure_threshold").getD
        (.int defaults.failure_threshold))) fun threshold =>
    bindE (require_positive_int ("targets[" ++ toString index ++ "].failure_threshold")
        threshold) fun _ =>
    .ok ⟨tname, url, enabled, timeout, threshold⟩
  | _ => .error (.valueError ("targets[" ++ toString index ++ "] must be an object"))

/-- The `for index, item in enumerate(targets_raw)` loop. -/
def parseTargets (defaults : GlobalDefaults) :
    Nat → List JValue → Except PyError (List TargetConfig)
  | _, [] => .ok []
  | index, item :: rest =>
    bindE (parseTarget defaults index item) fun tc =>
    bindE (parseTargets defaults (index + 1) rest) fun tcs =>
    .ok (tc :: tcs)

/-- `load_config` lines 71-97: the shape check on `raw.get("targets")`
(`not isinstance(targets_raw, list) or not targets_raw`) followed by the
elaboration loop. -/
def targetsStage (defaults : GlobalDefaults) (targetsRaw : Option JValue) :
    Except PyError (List TargetConfig) :=
  match targetsRaw with
  | some (.arr items) =>
    if items.isEmpty then .error (.valueError "targets must be a non-empty list")
    else parseTargets defaults 0 items
  | _ => .error (.valueError "targets must be a non-empty list")

/-- `load_config` (`app/config.py` lines 51-99), applied to the decoded
JSON document (reading the file and `json.loads` happen before this
function; a malformed file is outside its contract).  A non-dict document
makes `raw.get` raise `AttributeError`, as in CPython. -/
def load_config (raw : JValue) : Except PyError AppConfig :=
  match raw with
  | .obj rootFields =>
    bindE (parseTelegram rootFields) fun telegram =>
    bindE (parseDefaults rootFields) fun defaults =>
    bindE (targetsStage defaults (objGet rootFields "targets")) fun targets =>
    .ok ⟨telegram, defaults, targets⟩
  | _ => .error (.attributeError "object has no attribute get")

end Config

namespace Spec

open PyJson Config

/-!
The definitions in this namespace formalise the *specification's words*
for the loader contract (claim C8), to be compared with the behaviour of
`Config.load_config`.  They are deliberately written from the spec, not
from the code.  Each is split into a value-level function (suffix `V`, on
the looked-up optional value) and a wrapper applying it to the document,
so every pattern match sits on a function argument.
-/

/-- The failure reading of `_validate_url` on a parse result: the parse
raised, or the scheme is not `http`/`https`, or the netloc is empty.
Value-level so the match sits on a function argument. -/
def urlResultBadV : Except PyError (String × String) → Bool
  | .ok p => !((p.1 == "http" || p.1 == "https") && !(p.2 == ""))
  | .error _ => true

/-- Spec: this URL "fails to parse as absolute http/https" (with a
non-empty host): `urlparse` raises on it, or the scheme/netloc guard
fails. -/
def specUrlBad (value : String) : Bool :=
  urlResultBadV (urlsplitSchemeNetloc value)

/-- The success reading of `_validate_url` on a parse result, restricted
to ASCII netlocs: on a non-ASCII netloc CPython additionally runs
`_checknetloc`'s NFKC anti-spoofing check, which the embedding does not
model, so the acceptance predicate does not assert success there. -/
def urlResultOkV : Except PyError (String × String) → Bool
  | .ok p =>
    ((p.1 == "http" || p.1 == "https") && !(p.2 == "")) &&
      p.2.data.all (fun c => c.toNat ≤ 127)
  | .error _ => false

/-- Spec: this URL "parses as absolute http/https" with a non-empty
(ASCII) host. -/
def specUrlOk (value : String) : Bool :=
  urlResultOkV (urlsplitSchemeNetloc value)

/-- Spec: a credential entry is "missing or blank". -/
def specMissingOrBlankV : Option JValue → Bool
  | none => true
  | some (.str s) => (pyStrip s).isEmpty
  | some _ => false

/-- Spec: the given credential key is "missing or blank" in a credentials
object. -/
def specMissingOrBlank (fields : List (String × JValue)) (key : String) : Bool :=
  specMissingOrBlankV (objGet fields key)

/-- Spec: "the notification credentials are missing/blank", as a function
of the `telegram` entry. -/
def specCredentialsBadV : Option JValue → Bool
  | none => true
  | some (.obj tf) =>
    specMissingOrBlank tf "bot_token" || specMissingOrBlank tf "chat_id"
  | some v => !(pyTruthy v)

/-- Spec: "the notification credentials are missing/blank". -/
def specCredentialsBad (rootFields : List (String × JValue)) : Bool :=
  specCredentialsBadV (objGet rootFields "telegram")

/-- Spec: "the target list is missing, not a list, or empty", as a
function of the `targets` entry. -/
def specTargetsBadV : Option JValue → Bool
  | some (.arr items) => items.isEmpty
  | _ => true

/-- Spec: "the target list is missing, not a list, or empty". -/
def specTargetsBad (rootFields : List (String × JValue)) : Bool :=
  specTargetsBadV (objGet rootFields "targets")

/-- Spec: this target entry's "URL fails to parse as absolute http/https"
(reading the URL the way the loader does: `str(...).strip()`). -/
def specTargetUrlBadItem : JValue → Bool
  | .obj ifs => specUrlBad (pyStrip (pyStr ((objGet ifs "url").getD (.str ""))))
  | _ => false

/-- Spec: "any target URL fails to parse", over the `targets` entry. -/
def specTargetUrlBadV : Option JValue → Bool
  | some (.arr items) => items.any specTargetUrlBadItem
  | _ => false

/-- Spec: "any target URL fails to parse as absolute http/https". -/
def specTargetUrlBad (rootFields : List (String × JValue)) : Bool :=
  specTargetUrlBadV (objGet rootFields "targets")

/-- Spec: a present numeric field whose value is `<= 0`. -/
def numLeZero : Option JValue → Bool
  | some (.int n) => n ≤ 0
  | some (.float q) => q ≤ 0
  | _ => false

/-- Spec: a global numeric field (interval, timeout, failure_threshold)
is `<= 0`, over the `global_defaults` entry. -/
def specGlobalNumericBadV : Option JValue → Bool
  | some (.obj gf) =>
    numLeZero (objGet gf "interval_seconds") ||
      numLeZero (objGet gf "timeout_seconds") ||
      numLeZero (objGet gf "failure_threshold")
  | _ => false

/-- Spec: a global numeric field is `<= 0`. -/
def specGlobalNumericBad (rootFields : List (String × JValue)) : Bool :=
  specGlobalNumericBadV (objGet rootFields "global_defaults")

/-- Spec: a per-target numeric field (timeout, failure_threshold) of this
entry is `<= 0`. -/
def specTargetNumericBadItem : JValue → Bool
  | .obj ifs =>
    numLeZero (objGet ifs "timeout_seconds") ||
      numLeZero (objGet ifs "failure_threshold")
  | _ => false

/-- Spec: some per-target numeric field is `<= 0`, over the `targets`
entry. -/
def specTargetNumericBadV : Option JValue → Bool
  | some (.arr items) => items.any specTargetNumericBadItem
  | _ => false

/-- Spec: some per-target numeric field is `<= 0`. -/
def specTargetNumericBad (rootFields : List (String × JValue)) : Bool :=
  specTargetNumericBadV (objGet rootFields "targets")

/-- The disjunction of the spec's failure conditions for `load_config`
(claim C8). -/
def specRejects (raw : JValue) : Bool :=
  match raw with
  | .obj rootFields =>
    specCredentialsBad rootFields || specTargetsBad rootFields ||
      specTargetUrlBad rootFields || specGlobalNumericBad rootFields ||
      specTargetNumericBad rootFields
  | _ => false

/-- Well-typedness guard on a URL field: a string that validates. -/
def specUrlFieldOk : Option JValue → Bool
  | some (.str u) => specUrlOk (pyStrip u)
  | _ => false

/-- Well-typedness guard on an integral field: absent, or a positive
integer. -/
def specIntFieldOk : Option JValue → Bool
  | none => true
  | some (.int n) => 0 < n
  | some _ => false

/-- Well-typedness guard on a float-valued field: absent, or a positive
number. -/
def specNumFieldOk : Option JValue → Bool
  | none => true
  | some (.int n) => 0 < n
  | some (.float q) => 0 < q
  | some _ => false

/-- Well-typedness guard on a credential field: a string that is
non-blank after stripping. -/
def specStrFieldOk : Option JValue → Bool
  | some (.str s) => !((pyStrip s).isEmpty)
  | _ => false

/-- Well-typedness of one target entry, the guard under which the amended
claim C8 promises success: an object whose `url` is a string that
validates, and whose numeric fields, when present, are positive numbers
(the threshold integral). -/
def specWellFormedTarget : JValue → Bool
  | .obj ifs =>
    specUrlFieldOk (objGet ifs "url") &&
      specNumFieldOk (objGet ifs "timeout_seconds") &&
      specIntFieldOk (objGet ifs "failure_threshold")
  | _ => false

/-- Well-typedness of the global defaults entry: absent or falsy (the
loader substitutes an empty dict), or an object whose fields, when
present, are positive numbers (interval and threshold integral). -/
def specWellFormedDefaultsV : Option JValue → Bool
  | none => true
  | some (.obj gf) =>
    specIntFieldOk (objGet gf "interval_seconds") &&
      specNumFieldOk (objGet gf "timeout_seconds") &&
      specIntFieldOk (objGet gf "failure_threshold")
  | some v => !(pyTruthy v)

/-- Well-typedness of the global defaults entry of the document. -/
def specWellFormedDefaults (rootFields : List (String × JValue)) : Bool :=
  specWellFormedDefaultsV (objGet rootFields "global_defaults")

/-- Well-typedness of the credentials entry: an object whose `bot_token`
and `chat_id` are strings that are non-blank after stripping. -/
def specWellFormedCredentialsV : Option JValue → Bool
  | some (.obj tf) =>
    specStrFieldOk (objGet tf "bot_token") && specStrFieldOk (objGet tf "chat_id")
  | _ => false

/-- Well-typedness of the credentials entry of the document. -/
def specWellFormedCredentials (rootFields : List (String × JValue)) : Bool :=
  specWellFormedCredentialsV (objGet rootFields "telegram")

/-- Well-typedness of the target list: a non-empty array of well-formed
entries. -/
def specTargetsListOk : Option JValue → Bool
  | some (.arr items) => !(items.isEmpty) && items.all specWellFormedTarget
  | _ => false

/-- The acceptance guard of the amended claim C8: an object document with
well-formed credentials, well-formed global defaults, and a non-empty
target list all of whose entries are well-formed. -/
def specAccepts (raw : JValue) : Bool :=
  match raw with
  | .obj rootFields =>
    specWellFormedCredentials rootFields &&
      specWellFormedDefaults rootFields &&
      specTargetsListOk (objGet rootFields "targets")
  | _ => false

end Spec

namespace Checker

open PyJson Config

theorem downCount_nil : downCount [] = 0 := rfl

theorem downCount_append (a b : List AlertEvent) :
    downCount (a ++ b) = downCount a + downCount b := by
  simp [downCount, List.filter_append]

theorem recoveredCount_append (a b : List AlertEvent) :
    recoveredCount (a ++ b) = recoveredCount a + recoveredCount b := by
  simp [recoveredCount, List.filter_append]

/-- On a failed probe, `checkStep` increments the counter, and fires the
`[DOWN]` alert exactly when the target was up and the incremented counter
reaches the threshold. -/
theorem checkStep_fail (cn : Option String) (t : TargetConfig)
    (s : TargetState) (r : String) :
    checkStep cn t s false r =
      if s.is_down = false ∧ t.failure_threshold ≤ s.consecutive_failures + 1 then
        (⟨s.consecutive_failures + 1, true⟩,
          [AlertEvent.down (downMessage cn t r (s.consecutive_failures + 1))])
      else
        (⟨s.consecutive_failures + 1, s.is_down⟩, []) := by
  cases s with
  | mk cf d =>
    cases d
    · by_cases h : t.failure_threshold ≤ cf + 1 <;> simp [checkStep, h]
    · simp [checkStep]

/-- State and `[DOWN]`-alert count along a run of consecutive failures,
starting from a counter value `k` with `is_down` holding exactly when the
threshold is already met. -/
theorem runChecks_failRun (cn : Option String) (t : TargetConfig) (r : String) :
    ∀ (n k : Nat),
      (runChecks cn t ⟨(k : Int), decide (t.failure_threshold ≤ (k : Int))⟩
          (failRun r n)).1
        = ⟨((k + n : Nat) : Int), decide (t.failure_threshold ≤ ((k + n : Nat) : Int))⟩
      ∧ downCount (runChecks cn t ⟨(k : Int), decide (t.failure_threshold ≤ (k : Int))⟩
          (failRun r n)).2
        = if t.failure_threshold ≤ (k : Int) then 0
          else if t.failure_threshold ≤ ((k + n : Nat) : Int) then 1 else 0
  | 0, k => by
    refine ⟨rfl, ?_⟩
    simp only [failRun, List.replicate, runChecks, downCount_nil]
    split_ifs <;> omega
  | n + 1, k => by
    have hid : k + 1 + n = k + (n + 1) := by omega
    have hcast : ((k + 1 : Nat) : Int) = (k : Int) + 1 := by push_cast; ring
    have ih := runChecks_failRun cn t r n (k + 1)
    rw [hid] at ih
    simp only [failRun] at ih ⊢
    have hstep := checkStep_fail cn t
      ⟨(k : Int), decide (t.failure_threshold ≤ (k : Int))⟩ r
    simp only [List.replicate_succ]
    by_cases hk : t.failure_threshold ≤ (k : Int)
    · -- already at/over threshold: the target is DOWN, no further alert fires
      have hk1 : t.failure_threshold ≤ ((k + 1 : Nat) : Int) := by rw [hcast]; omega
      have hs : checkStep cn t
          ⟨(k : Int), decide (t.failure_threshold ≤ (k : Int))⟩ false r
          = (⟨((k + 1 : Nat) : Int), decide (t.failure_threshold ≤ ((k + 1 : Nat) : Int))⟩, []) := by
        rw [hstep, hcast]
        rw [hcast] at hk1
        simp [decide_eq_true hk, decide_eq_true hk1]
      refine ⟨?_, ?_⟩
      · simp only [runChecks, hs]
        exact ih.1
      · simp only [runChecks, hs, downCount_append, downCount_nil]
        rw [ih.2, if_pos hk1, if_pos hk]
      -- still UP before this failure
    · by_cases hk1 : t.failure_threshold ≤ ((k + 1 : Nat) : Int)
      · -- this failure crosses the threshold: one DOWN alert fires now
        have hs : checkStep cn t
            ⟨(k : Int), decide (t.failure_threshold ≤ (k : Int))⟩ false r
            = (⟨((k + 1 : Nat) : Int), decide (t.failure_threshold ≤ ((k + 1 : Nat) : Int))⟩,
               [AlertEvent.down (downMessage cn t r ((k : Int) + 1))]) := by
          rw [hstep, hcast]
          rw [hcast] at hk1
          simp [decide_eq_false hk, hk, hk1]
        have hkn : t.failure_threshold ≤ ((k + (n + 1) : Nat) : Int) := by
          rw [hcast] at hk1; push_cast at *; omega
        refine ⟨?_, ?_⟩
        · simp only [runChecks, hs]
          exact ih.1
        · simp only [runChecks, hs, downCount_append]
          rw [ih.2, if_pos hk1, if_neg hk, if_pos hkn]
          simp [downCount, AlertEvent.isDown]
      · -- below threshold even after this failure: no alert yet
        have hs : checkStep cn t
            ⟨(k : Int), decide (t.failure_threshold ≤ (k : Int))⟩ false r
            = (⟨((k + 1 : Nat) : Int), decide (t.failure_threshold ≤ ((k + 1 : Nat) : Int))⟩, []) := by
          rw [hstep, hcast]
          rw [hcast] at hk1
          simp [decide_eq_false hk, decide_eq_false hk1, hk1]
        refine ⟨?_, ?_⟩
        · simp only [runChecks, hs]
          exact ih.1
        · simp only [runChecks, hs, downCount_append, downCount_nil]
          rw [ih.2, if_neg hk1, if_neg hk]
          omega

theorem checkStep_inv (cn : Option String) (t : TargetConfig)
    (s : TargetState) (is_ok : Bool) (r : String) (h : StateInv t s) :
    StateInv t (checkStep cn t s is_ok r).1 := by
  obtain ⟨h0, hd⟩ := h
  cases is_ok
  · rw [checkStep_fail]
    by_cases hc : s.is_down = false ∧ t.failure_threshold ≤ s.consecutive_failures + 1
    · rw [if_pos hc]
      dsimp only [StateInv]
      exact ⟨by omega, fun _ => hc.2⟩
    · rw [if_neg hc]
      dsimp only [StateInv]
      refine ⟨by omega, fun hdd => ?_⟩
      have := hd hdd
      omega
  · cases hdn : s.is_down <;> simp [checkStep, StateInv, hdn]

theorem runChecks_inv (cn : Option String) (t : TargetConfig) :
    ∀ (rs : List (Bool × String)) (s : TargetState),
      StateInv t s → StateInv t (runChecks cn t s rs).1
  | [], _, h => h
  | (is_ok, r) :: rest, s, h =>
    runChecks_inv cn t rest (checkStep cn t s is_ok r).1
      (checkStep_inv cn t s is_ok r h)

/-- C1: for a target with `failure_threshold = T ≥ 1` and a fresh state
(`consecutive_failures = 0`, `is_down = false`), a run of `n` consecutive
failed probe results emits exactly one DOWN notification when `n ≥ T` and
none when `n < T`; so the single alert fires on the T-th failure, and
failures T+1, T+2, … produce no additional DOWN notification while the
run of failures continues. -/
theorem c1_down_alert_exactly_once (cn : Option String) (t : TargetConfig)
    (r : String) (n : Nat) (hT : 1 ≤ t.failure_threshold) :
    downCount (runChecks cn t TargetState.fresh (failRun r n)).2
      = if t.failure_threshold ≤ (n : Int) then 1 else 0 := by
  have h0 : ¬ t.failure_threshold ≤ ((0 : Nat) : Int) := by
    push_cast
    omega
  have hfresh : (TargetState.fresh : TargetState)
      = ⟨((0 : Nat) : Int), decide (t.failure_threshold ≤ ((0 : Nat) : Int))⟩ := by
    rw [show (decide (t.failure_threshold ≤ ((0 : Nat) : Int))) = false
      from decide_eq_false h0]
    rfl
  rw [hfresh, (runChecks_failRun cn t r n 0).2, if_neg h0]
  norm_num

/-- Witness for C1: threshold 2, a run of 5 failures, exactly one DOWN. -/
theorem c1_down_alert_exactly_once_witness :
    downCount (runChecks none ⟨"t", "http://x", true, 5, 2⟩ TargetState.fresh
        (failRun "status_code=500" 5)).2
      = if (2 : Int) ≤ ((5 : Nat) : Int) then 1 else 0 :=
  c1_down_alert_exactly_once none ⟨"t", "http://x", true, 5, 2⟩ "status_code=500" 5
    (by decide)

/-- C2: a single successful probe while `is_down` sends exactly one
RECOVERED notification and resets the state to `(0, false)`; a successful
probe while up resets the counter and sends nothing; and the
success-while-down branch is the only one that ever emits a RECOVERED
notification. -/
theorem c2_recovery_semantics (cn : Option String) (t : TargetConfig) (r : String) :
    (∀ s : TargetState, s.is_down = true →
        checkStep cn t s true r
          = (⟨0, false⟩, [AlertEvent.recovered (recoveredMessage cn t)])) ∧
    (∀ s : TargetState, s.is_down = false →
        checkStep cn t s true r = (⟨0, false⟩, [])) ∧
    (∀ (s : TargetState) (is_ok : Bool) (reason : String),
        0 < recoveredCount (checkStep cn t s is_ok reason).2 →
        is_ok = true ∧ s.is_down = true) := by
  refine ⟨?_, ?_, ?_⟩
  · intro s h
    simp [checkStep, h]
  · intro s h
    cases s with
    | mk cf d =>
      simp only [TargetState.is_down] at h
      subst h
      simp [checkStep]
  · intro s is_ok reason h
    cases is_ok
    · rw [checkStep_fail] at h
      by_cases hc : s.is_down = false ∧ t.failure_threshold ≤ s.consecutive_failures + 1
      · rw [if_pos hc] at h
        simp [recoveredCount, AlertEvent.isRecovered] at h
      · rw [if_neg hc] at h
        simp [recoveredCount] at h
    · cases hd : s.is_down
      · simp [checkStep, hd, recoveredCount] at h
      · exact ⟨rfl, rfl⟩

/-- Witness for C2: a success while down, from counter 4. -/
theorem c2_recovery_semantics_witness :
    checkStep none ⟨"t", "http://x", true, 5, 2⟩ ⟨4, true⟩ true "status_code=200"
      = (⟨0, false⟩,
         [AlertEvent.recovered (recoveredMessage none ⟨"t", "http://x", true, 5, 2⟩)]) :=
  (c2_recovery_semantics none ⟨"t", "http://x", true, 5, 2⟩ "status_code=200").1
    ⟨4, true⟩ rfl

/-- C6: after any sequence of probe results for a target (fixed
threshold), starting from the fresh state, `consecutive_failures` is
non-negative, and `is_down` holds only if the counter has reached the
target's `failure_threshold` with no success since (in particular
`is_down = true` implies `consecutive_failures ≥ failure_threshold`). -/
theorem c6_state_invariant (cn : Option String) (t : TargetConfig)
    (rs : List (Bool × String)) :
    0 ≤ (runChecks cn t TargetState.fresh rs).1.consecutive_failures ∧
    ((runChecks cn t TargetState.fresh rs).1.is_down = true →
      t.failure_threshold ≤ (runChecks cn t TargetState.fresh rs).1.consecutive_failures) :=
  runChecks_inv cn t rs TargetState.fresh
    ⟨by simp [TargetState.fresh], by simp [TargetState.fresh]⟩

/-- Witness for C6: threshold 1, one failure, the invariant's implication
instantiated at a state that is down. -/
theorem c6_state_invariant_witness :
    (1 : Int) ≤ (runChecks none ⟨"t", "http://x", true, 5, 1⟩ TargetState.fresh
        [(false, "err")]).1.consecutive_failures :=
  (c6_state_invariant none ⟨"t", "http://x", true, 5, 1⟩ [(false, "err")]).2 (by rfl)

theorem statesFind_store_self (m : StatesMap) (k : String) (v : TargetState) :
    statesFind (statesStore m k v) k = some v := by
  induction m with
  | nil => simp [statesStore, statesFind]
  | cons p rest ih =>
    obtain ⟨k0, v0⟩ := p
    by_cases h : k0 = k
    · simp [statesStore, statesFind, h]
    · simp [statesStore, statesFind, h, ih]

theorem statesFind_store_ne (m : StatesMap) (k k' : String) (v : TargetState)
    (h : k ≠ k') : statesFind (statesStore m k v) k' = statesFind m k' := by
  induction m with
  | nil => simp [statesStore, statesFind, h]
  | cons p rest ih =>
    obtain ⟨k0, v0⟩ := p
    by_cases h0 : k0 = k
    · subst h0
      have : k0 ≠ k' := h
      simp [statesStore, statesFind, this]
    · by_cases h1 : k0 = k' <;> simp [statesStore, statesFind, h0, h1, ih, Ne.symm h]

theorem statesFind_store_isSome (m : StatesMap) (k k' : String) (v : TargetState)
    (h : (statesFind m k').isSome = true) :
    (statesFind (statesStore m k v) k').isSome = true := by
  by_cases he : k = k'
  · subst he
    simp [statesFind_store_self]
  · rw [statesFind_store_ne m k k' v he]
    exact h

/-- Targets that share a name but differ in URL, or share a URL but
differ in name, get different composite keys `name|url`. -/
theorem stateKey_ne (t1 t2 : TargetConfig)
    (h : (t1.name = t2.name ∧ t1.url ≠ t2.url) ∨
         (t1.url = t2.url ∧ t1.name ≠ t2.name)) :
    stateKey t1 ≠ stateKey t2 := by
  intro he
  rcases h with ⟨hn, hu⟩ | ⟨hu, hn⟩
  · apply hu
    rw [stateKey, stateKey, hn] at he
    have hd := congrArg String.data he
    simp only [String.data_append] at hd
    exact String.ext (List.append_cancel_left hd)
  · apply hn
    rw [stateKey, stateKey, hu] at he
    have hd := congrArg String.data he
    simp only [String.data_append] at hd
    rw [List.append_assoc, List.append_assoc] at hd
    exact String.ext (List.append_cancel_right hd)

/-- `_check_target` writes only its own composite key. -/
theorem checkTarget_frame (cn : Option String) (deliver : String → Bool)
    (target : TargetConfig) (states : StatesMap) (outcome : HttpOutcome)
    (k : String) (hk : stateKey target ≠ k) :
    statesFind (checkTarget cn deliver target states outcome).1 k
      = statesFind states k := by
  simp only [checkTarget]
  exact statesFind_store_ne states (stateKey target) k _ hk

/-- `_check_target` reads only its own composite key: replacing any other
key's entry changes neither its outputs nor its own stored entry. -/
theorem checkTarget_read_frame (cn : Option String) (deliver : String → Bool)
    (target : TargetConfig) (states : StatesMap) (outcome : HttpOutcome)
    (k : String) (v : TargetState) (hk : k ≠ stateKey target) :
    (checkTarget cn deliver target (statesStore states k v) outcome).2
        = (checkTarget cn deliver target states outcome).2 ∧
    statesFind (checkTarget cn deliver target (statesStore states k v) outcome).1
        (stateKey target)
      = statesFind (checkTarget cn deliver target states outcome).1
        (stateKey target) := by
  have hread : statesFind (statesStore states k v) (stateKey target)
      = statesFind states (stateKey target) :=
    statesFind_store_ne states k (stateKey target) v hk
  constructor
  · simp only [checkTarget, hread]
  · simp only [checkTarget, hread, statesFind_store_self]

/-- C5: for two targets sharing a name but with different URLs, or
sharing a URL but with different names, the composite keys differ;
checking one never modifies the other's stored entry, and never reads it
(replacing the other's entry changes neither the alerts/sends nor the
checked target's own stored entry). -/
theorem c5_independent_state (t1 t2 : TargetConfig)
    (h : (t1.name = t2.name ∧ t1.url ≠ t2.url) ∨
         (t1.url = t2.url ∧ t1.name ≠ t2.name)) :
    stateKey t1 ≠ stateKey t2 ∧
    (∀ (cn : Option String) (deliver : String → Bool) (states : StatesMap)
        (outcome : HttpOutcome),
      statesFind (checkTarget cn deliver t1 states outcome).1 (stateKey t2)
        = statesFind states (stateKey t2)) ∧
    (∀ (cn : Option String) (deliver : String → Bool) (states : StatesMap)
        (outcome : HttpOutcome) (v : TargetState),
      (checkTarget cn deliver t1 (statesStore states (stateKey t2) v) outcome).2
        = (checkTarget cn deliver t1 states outcome).2 ∧
      statesFind (checkTarget cn deliver t1 (statesStore states (stateKey t2) v)
          outcome).1 (stateKey t1)
        = statesFind (checkTarget cn deliver t1 states outcome).1 (stateKey t1)) := by
  have hne := stateKey_ne t1 t2 h
  refine ⟨hne, ?_, ?_⟩
  · intro cn deliver states outcome
    exact checkTarget_frame cn deliver t1 states outcome (stateKey t2) hne
  · intro cn deliver states outcome v
    exact checkTarget_read_frame cn deliver t1 states outcome (stateKey t2) v
      (Ne.symm hne)

/-- Witness for C5: same name, different URLs; checking the first leaves
the second's (absent) entry absent. -/
theorem c5_independent_state_witness :
    statesFind (checkTarget none (fun _ => true) ⟨"a", "http://x1", true, 5, 1⟩ []
        (.response 500)).1 (stateKey ⟨"a", "http://x2", true, 5, 1⟩)
      = statesFind [] (stateKey ⟨"a", "http://x2", true, 5, 1⟩) :=
  (c5_independent_state ⟨"a", "http://x1", true, 5, 1⟩ ⟨"a", "http://x2", true, 5, 1⟩
    (Or.inl ⟨rfl, by decide⟩)).2.1 none (fun _ => true) [] (.response 500)

/-- `check_targets` on a list with no enabled target: warn and return. -/
theorem checkTargets_empty (cn : Option String) (deliver : String → Bool)
    (probe : TargetConfig → HttpOutcome) (states : StatesMap)
    (targets : List TargetConfig)
    (he : (targets.filter (fun t => t.enabled)).isEmpty = true) :
    checkTargets cn deliver probe states targets = (⟨states, [], [], []⟩, true) := by
  simp only [checkTargets]
  rw [if_pos he]

/-- `check_targets` on a list with at least one enabled target runs the
per-target loop over the enabled sublist. -/
theorem checkTargets_nonempty (cn : Option String) (deliver : String → Bool)
    (probe : TargetConfig → HttpOutcome) (states : StatesMap)
    (targets : List TargetConfig)
    (he : (targets.filter (fun t => t.enabled)).isEmpty = false) :
    checkTargets cn deliver probe states targets
      = (runTargets cn deliver probe states (targets.filter (fun t => t.enabled)),
         false) := by
  simp only [checkTargets]
  rw [if_neg]
  simp [he]

theorem runTargets_probed (cn : Option String) (deliver : String → Bool)
    (probe : TargetConfig → HttpOutcome) :
    ∀ (ts : List TargetConfig) (states : StatesMap),
      (runTargets cn deliver probe states ts).probed = ts
  | [], _ => rfl
  | t :: rest, states => by
    simp only [runTargets]
    rw [runTargets_probed cn deliver probe rest]

theorem runTargets_frame (cn : Option String) (deliver : String → Bool)
    (probe : TargetConfig → HttpOutcome) :
    ∀ (ts : List TargetConfig) (states : StatesMap) (k : String),
      (∀ t ∈ ts, stateKey t ≠ k) →
      statesFind (runTargets cn deliver probe states ts).states k
        = statesFind states k
  | [], _, _, _ => rfl
  | t :: rest, states, k, h => by
    simp only [runTargets]
    rw [runTargets_frame cn deliver probe rest _ k
      (fun t' ht' => h t' (List.mem_cons_of_mem t ht'))]
    exact checkTarget_frame cn deliver t states (probe t) k
      (h t (List.mem_cons_self t rest))

theorem runTargets_isSome (cn : Option String) (deliver : String → Bool)
    (probe : TargetConfig → HttpOutcome) :
    ∀ (ts : List TargetConfig) (states : StatesMap) (k : String),
      (statesFind states k).isSome = true →
      (statesFind (runTargets cn deliver probe states ts).states k).isSome = true
  | [], _, _, h => h
  | t :: rest, states, k, h => by
    simp only [runTargets]
    apply runTargets_isSome cn deliver probe rest
    simp only [checkTarget]
    exact statesFind_store_isSome states (stateKey t) k _ h

theorem runTargets_member_isSome (cn : Option String) (deliver : String → Bool)
    (probe : TargetConfig → HttpOutcome) :
    ∀ (ts : List TargetConfig) (states : StatesMap),
      ∀ t ∈ ts,
      (statesFind (runTargets cn deliver probe states ts).states
        (stateKey t)).isSome = true
  | [], _, t, ht => absurd ht (List.not_mem_nil t)
  | t0 :: rest, states, t, ht => by
    rcases List.mem_cons.mp ht with he | hm
    · subst he
      simp only [runTargets]
      apply runTargets_isSome cn deliver probe rest
      simp only [checkTarget]
      simp [statesFind_store_self]
    · simp only [runTargets]
      exact runTargets_member_isSome cn deliver probe rest _ t hm

/-- C4: probe exceptions are contained at the per-target boundary: the
probe converts any exception into an `ok = false` result carrying the
exception type and message; and for every probe oracle — including ones
that produce an exception for every target — `check_targets` still
processes the full enabled list, every enabled target ending up with a
stored state entry. -/
theorem c4_exceptions_contained (cn : Option String) (deliver : String → Bool)
    (probe : TargetConfig → HttpOutcome) (states : StatesMap)
    (targets : List TargetConfig) :
    (∀ excName msg, requestStatus (.exc excName msg) = (false, excName ++ ": " ++ msg)) ∧
    (checkTargets cn deliver probe states targets).1.probed
      = targets.filter (fun t => t.enabled) ∧
    (∀ t ∈ targets.filter (fun t => t.enabled),
      (statesFind (checkTargets cn deliver probe states targets).1.states
        (stateKey t)).isSome = true) := by
  refine ⟨fun _ _ => rfl, ?_, ?_⟩
  · cases he : (targets.filter (fun t => t.enabled)).isEmpty
    · rw [checkTargets_nonempty cn deliver probe states targets he]
      exact runTargets_probed cn deliver probe _ states
    · rw [checkTargets_empty cn deliver probe states targets he]
      exact (List.isEmpty_iff.mp he).symm
  · intro t ht
    cases he : (targets.filter (fun t => t.enabled)).isEmpty
    · rw [checkTargets_nonempty cn deliver probe states targets he]
      exact runTargets_member_isSome cn deliver probe _ states t ht
    · rw [List.isEmpty_iff.mp he] at ht
      cases ht

/-- Witness for C4: one enabled target whose probe raises; its state entry
exists after the cycle. -/
theorem c4_exceptions_contained_witness :
    (statesFind (checkTargets none (fun _ => true)
        (fun _ => .exc "ConnectError" "boom") []
        [⟨"a", "http://x", true, 5, 1⟩]).1.states
      (stateKey ⟨"a", "http://x", true, 5, 1⟩)).isSome = true :=
  (c4_exceptions_contained none (fun _ => true) (fun _ => .exc "ConnectError" "boom")
      [] [⟨"a", "http://x", true, 5, 1⟩]).2.2 ⟨"a", "http://x", true, 5, 1⟩ (by decide)

/-- C10: `check_targets` probes exactly the enabled targets; an all-
disabled (or empty) list sets the warning flag and performs no checks and
no mutation; keys other than the enabled targets' composite keys are
untouched; and no existing entry is ever deleted. -/
theorem c10_filter_warn_frame (cn : Option String) (deliver : String → Bool)
    (probe : TargetConfig → HttpOutcome) (states : StatesMap)
    (targets : List TargetConfig) :
    (checkTargets cn deliver probe states targets).1.probed
      = targets.filter (fun t => t.enabled) ∧
    (targets.filter (fun t => t.enabled) = [] →
      (checkTargets cn deliver probe states targets).2 = true ∧
      (checkTargets cn deliver probe states targets).1.states = states ∧
      (checkTargets cn deliver probe states targets).1.probed = [] ∧
      (checkTargets cn deliver probe states targets).1.alerts = [] ∧
      (checkTargets cn deliver probe states targets).1.sends = []) ∧
    (∀ k : String,
      (∀ t ∈ targets.filter (fun t => t.enabled), stateKey t ≠ k) →
      statesFind (checkTargets cn deliver probe states targets).1.states k
        = statesFind states k) ∧
    (∀ k : String, (statesFind states k).isSome = true →
      (statesFind (checkTargets cn deliver probe states targets).1.states k).isSome
        = true) := by
  refine ⟨?_, ?_, ?_, ?_⟩
  · cases he : (targets.filter (fun t => t.enabled)).isEmpty
    · rw [checkTargets_nonempty cn deliver probe states targets he]
      exact runTargets_probed cn deliver probe _ states
    · rw [checkTargets_empty cn deliver probe states targets he]
      exact (List.isEmpty_iff.mp he).symm
  · intro hnil
    have he : (targets.filter (fun t => t.enabled)).isEmpty = true :=
      List.isEmpty_iff.mpr hnil
    rw [checkTargets_empty cn deliver probe states targets he]
    exact ⟨rfl, rfl, rfl, rfl, rfl⟩
  · intro k hk
    cases he : (targets.filter (fun t => t.enabled)).isEmpty
    · rw [checkTargets_nonempty cn deliver probe states targets he]
      exact runTargets_frame cn deliver probe _ states k hk
    · rw [checkTargets_empty cn deliver probe states targets he]
  · intro k hk
    cases he : (targets.filter (fun t => t.enabled)).isEmpty
    · rw [checkTargets_nonempty cn deliver probe states targets he]
      exact runTargets_isSome cn deliver probe _ states k hk
    · rw [checkTargets_empty cn deliver probe states targets he]
      exact hk

/-- Witness for C10: a single disabled target — warning flag set, nothing
probed, nothing mutated. -/
theorem c10_filter_warn_frame_witness :
    (checkTargets none (fun _ => true) (fun _ => .response 200) []
        [⟨"a", "http://x", false, 5, 1⟩]).2 = true ∧
    (checkTargets none (fun _ => true) (fun _ => .response 200) []
        [⟨"a", "http://x", false, 5, 1⟩]).1.states = [] ∧
    (checkTargets none (fun _ => true) (fun _ => .response 200) []
        [⟨"a", "http://x", false, 5, 1⟩]).1.probed = [] ∧
    (checkTargets none (fun _ => true) (fun _ => .response 200) []
        [⟨"a", "http://x", false, 5, 1⟩]).1.alerts = [] ∧
    (checkTargets none (fun _ => true) (fun _ => .response 200) []
        [⟨"a", "http://x", false, 5, 1⟩]).1.sends = [] :=
  (c10_filter_warn_frame none (fun _ => true) (fun _ => .response 200) []
    [⟨"a", "http://x", false, 5, 1⟩]).2.1 (by decide)

theorem runTargets_delivery_independent (cn : Option String)
    (probe : TargetConfig → HttpOutcome) (d1 d2 : String → Bool) :
    ∀ (ts : List TargetConfig) (states : StatesMap),
      (runTargets cn d1 probe states ts).states
          = (runTargets cn d2 probe states ts).states ∧
      (runTargets cn d1 probe states ts).alerts
          = (runTargets cn d2 probe states ts).alerts
  | [], _ => ⟨rfl, rfl⟩
  | t :: rest, states => by
    have h1 : (checkTarget cn d1 t states (probe t)).1
        = (checkTarget cn d2 t states (probe t)).1 := rfl
    have h2 : (checkTarget cn d1 t states (probe t)).2.1
        = (checkTarget cn d2 t states (probe t)).2.1 := rfl
    have ih := runTargets_delivery_independent cn probe d1 d2 rest
      (checkTarget cn d2 t states (probe t)).1
    constructor
    · show (runTargets cn d1 probe (checkTarget cn d1 t states (probe t)).1 rest).states
        = (runTargets cn d2 probe (checkTarget cn d2 t states (probe t)).1 rest).states
      rw [h1]
      exact ih.1
    · show (checkTarget cn d1 t states (probe t)).2.1
          ++ (runTargets cn d1 probe (checkTarget cn d1 t states (probe t)).1 rest).alerts
        = (checkTarget cn d2 t states (probe t)).2.1
          ++ (runTargets cn d2 probe (checkTarget cn d2 t states (probe t)).1 rest).alerts
      rw [h2, h1, ih.2]

/-- C9: the notifier's delivery result feeds back into nothing — two runs
receiving the same probe result but different delivery outcomes produce
the same updated state and the same alerts, target-wise and cycle-wise;
each alert message is handed to `send` exactly once, with no retry; and
`send` itself is a total function that returns `False` (instead of
raising) on an exception and on any non-2xx response. -/
theorem c9_delivery_independent (cn : Option String) (t : TargetConfig)
    (states : StatesMap) (outcome : HttpOutcome) (d1 d2 : String → Bool) :
    (checkTarget cn d1 t states outcome).1 = (checkTarget cn d2 t states outcome).1 ∧
    (checkTarget cn d1 t states outcome).2.1
      = (checkTarget cn d2 t states outcome).2.1 ∧
    ((checkTarget cn d1 t states outcome).2.2.map Prod.fst
      = ((checkTarget cn d1 t states outcome).2.1).map AlertEvent.message) ∧
    (∀ (probe : TargetConfig → HttpOutcome) (targets : List TargetConfig),
      (checkTargets cn d1 probe states targets).1.states
          = (checkTargets cn d2 probe states targets).1.states ∧
      (checkTargets cn d1 probe states targets).1.alerts
          = (checkTargets cn d2 probe states targets).1.alerts) ∧
    TelegramNotifier.send .exc = false ∧
    (∀ (status : Int) (body : JValue), ¬ (200 ≤ status ∧ status < 300) →
      TelegramNotifier.send (.response status body) = false) := by
  refine ⟨rfl, rfl, ?_, ?_, rfl, ?_⟩
  · simp [checkTarget]
  · intro probe targets
    cases he : (targets.filter (fun tg => tg.enabled)).isEmpty
    · rw [checkTargets_nonempty cn d1 probe states targets he,
        checkTargets_nonempty cn d2 probe states targets he]
      exact runTargets_delivery_independent cn probe d1 d2 _ states
    · rw [checkTargets_empty cn d1 probe states targets he,
        checkTargets_empty cn d2 probe states targets he]
      exact ⟨rfl, rfl⟩
  · intro status body h
    simp [TelegramNotifier.send, h]

/-- Witness for C9: a 404 acknowledgment response is reported as a failed
delivery, not an exception. -/
theorem c9_delivery_independent_witness :
    TelegramNotifier.send (.response 404 (.obj [("ok", .bool true)])) = false :=
  (c9_delivery_independent none ⟨"a", "http://x", true, 5, 1⟩ [] (.response 200)
    (fun _ => true) (fun _ => false)).2.2.2.2.2 404 (.obj [("ok", .bool true)])
    (by decide)

end Checker

namespace Config

open PyJson Checker Spec

theorem bindE_ok {α β : Type} (a : α) (f : α → Except PyError β) :
    bindE (.ok a) f = f a := rfl

theorem bindE_err {α β : Type} {x : Except PyError α}
    (f : α → Except PyError β) (h : x.isOk = false) :
    (bindE x f).isOk = false := by
  cases x with
  | error e => rfl
  | ok a => simp [Except.isOk, Except.toBool] at h

/-- To show a `bindE` chain fails, it suffices that the continuation fails
whenever the head succeeds (a failing head propagates by itself). -/
theorem bindE_err2 {α β : Type} {x : Except PyError α}
    {f : α → Except PyError β} (h : ∀ a, x = .ok a → (f a).isOk = false) :
    (bindE x f).isOk = false := by
  cases x with
  | error e => rfl
  | ok a => exact h a rfl

theorem bindE_eq_ok {α β : Type} {x : Except PyError α}
    {f : α → Except PyError β} {b : β} (h : bindE x f = .ok b) :
    ∃ a, x = .ok a ∧ f a = .ok b := by
  cases x with
  | error e => simp [bindE] at h
  | ok a => exact ⟨a, rfl, h⟩

theorem require_positive_int_err (numName : String) {v : Int} (h : v ≤ 0) :
    (require_positive_int numName v).isOk = false := by
  unfold require_positive_int
  rw [if_pos h]
  rfl

theorem require_positive_rat_err (numName : String) {v : Rat} (h : v ≤ 0) :
    (require_positive_rat numName v).isOk = false := by
  unfold require_positive_rat
  rw [if_pos h]
  rfl

theorem require_positive_int_ok (numName : String) {v : Int} (h : 0 < v) :
    require_positive_int numName v = .ok v := by
  simp [require_positive_int]
  omega

theorem require_positive_rat_ok (numName : String) {v : Rat} (h : 0 < v) :
    require_positive_rat numName v = .ok v := by
  have : ¬ v ≤ 0 := not_le.mpr h
  simp [require_positive_rat, this]

theorem numLeZero_isSome {o : Option JValue} (h : numLeZero o = true) :
    ∃ v, o = some v := by
  cases o with
  | none => simp [numLeZero] at h
  | some v => exact ⟨v, rfl⟩

theorem pyInt_of_numLeZero {v : JValue} (h : numLeZero (some v) = true) :
    ∃ m, pyInt v = .ok m ∧ m ≤ 0 := by
  cases v with
  | int n =>
    simp only [numLeZero, decide_eq_true_eq] at h
    exact ⟨n, rfl, h⟩
  | float q =>
    simp only [numLeZero, decide_eq_true_eq] at h
    refine ⟨_, rfl, ?_⟩
    by_cases h0 : 0 ≤ q
    · have hq : q = 0 := le_antisymm h h0
      simp [pyInt, hq]
    · simp only [pyInt, if_neg h0]
      exact Int.ceil_le.mpr (by exact_mod_cast h)
  | null => simp [numLeZero] at h
  | bool b => simp [numLeZero] at h
  | str s => simp [numLeZero] at h
  | arr xs => simp [numLeZero] at h
  | obj fs => simp [numLeZero] at h

theorem pyFloat_of_numLeZero {v : JValue} (h : numLeZero (some v) = true) :
    ∃ q, pyFloat v = .ok q ∧ q ≤ 0 := by
  cases v with
  | int n =>
    simp only [numLeZero, decide_eq_true_eq] at h
    refine ⟨(n : Rat), rfl, ?_⟩
    exact_mod_cast h
  | float q =>
    simp only [numLeZero, decide_eq_true_eq] at h
    exact ⟨q, rfl, h⟩
  | null => simp [numLeZero] at h
  | bool b => simp [numLeZero] at h
  | str s => simp [numLeZero] at h
  | arr xs => simp [numLeZero] at h
  | obj fs => simp [numLeZero] at h

theorem validate_url_err {u : String} (h : specUrlBad u = true) :
    (validate_url u).isOk = false := by
  unfold specUrlBad at h
  unfold validate_url
  apply bindE_err2
  intro p hp
  rw [hp] at h
  have h' : (!((p.1 == "http" || p.1 == "https") && !(p.2 == ""))) = true := h
  show (if (p.1 = "http" ∨ p.1 = "https") ∧ p.2 ≠ "" then
      (Except.ok u : Except PyError String)
    else Except.error (PyError.valueError ("Invalid URL: " ++ u))).isOk = false
  rw [if_neg]
  · rfl
  · intro hc
    rcases hc with ⟨h1, h2⟩
    rcases h1 with hh | hh <;> simp [hh, h2] at h'

theorem validate_url_ok {u : String} (h : specUrlOk u = true) :
    validate_url u = .ok u := by
  unfold specUrlOk at h
  unfold validate_url
  cases hp : urlsplitSchemeNetloc u with
  | error e =>
    rw [hp] at h
    exact Bool.noConfusion h
  | ok p =>
    rw [hp] at h
    have h' : (((p.1 == "http" || p.1 == "https") && !(p.2 == "")) &&
        p.2.data.all (fun c => c.toNat ≤ 127)) = true := h
    simp only [Bool.and_eq_true, Bool.or_eq_true, beq_iff_eq,
      Bool.not_eq_true', beq_eq_false_iff_ne] at h'
    show (if (p.1 = "http" ∨ p.1 = "https") ∧ p.2 ≠ "" then
        (Except.ok u : Except PyError String)
      else Except.error (PyError.valueError ("Invalid URL: " ++ u))) = Except.ok u
    rw [if_pos ⟨h'.1.1, h'.1.2⟩]

theorem objGet_cons_ne (k0 : String) (v : JValue)
    (fields : List (String × JValue)) (key : String) (h : k0 ≠ key) :
    objGet ((k0, v) :: fields) key = objGet fields key := by
  simp only [objGet]
  cases objGet fields key <;> simp [h]

theorem objGet_some_nonempty {fields : List (String × JValue)} {key : String}
    {v : JValue} (h : objGet fields key = some v) : fields.isEmpty = false := by
  cases fields with
  | nil => simp [objGet] at h
  | cons p rest => rfl

/-- A credential that the spec calls "missing or blank" strips to the
empty string along the loader's `str(...).strip()` path. -/
theorem blank_of_missingOrBlank {tf : List (String × JValue)} {key : String}
    (h : specMissingOrBlank tf key = true) :
    (pyStrip (pyStr ((objGet tf key).getD (.str "")))).isEmpty = true := by
  unfold specMissingOrBlank at h
  cases ho : objGet tf key with
  | none => rfl
  | some v =>
    rw [ho] at h
    cases v with
    | str s => exact h
    | null => exact Bool.noConfusion h
    | bool b => exact Bool.noConfusion h
    | int n => exact Bool.noConfusion h
    | float q => exact Bool.noConfusion h
    | arr xs => exact Bool.noConfusion h
    | obj gs => exact Bool.noConfusion h

theorem parseTelegram_err (fs : List (String × JValue))
    (h : specCredentialsBad fs = true) : (parseTelegram fs).isOk = false := by
  cases hobj : objGet fs "telegram" with
  | none =>
    simp only [parseTelegram, hobj]
    rfl
  | some v =>
    unfold specCredentialsBad at h
    rw [hobj] at h
    cases hpt : pyTruthy v with
    | false =>
      simp only [parseTelegram, hobj, Option.getD_some]
      rw [if_neg (by simp [hpt])]
      rfl
    | true =>
      cases v with
      | obj tf =>
        simp only [parseTelegram, hobj, Option.getD_some]
        rw [if_pos hpt]
        simp only [dictGetD, bindE_ok]
        have h' : (specMissingOrBlank tf "bot_token"
            || specMissingOrBlank tf "chat_id") = true := h
        simp only [Bool.or_eq_true] at h'
        rcases h' with htok | hchat
        · rw [if_pos]
          · rfl
          · simp [blank_of_missingOrBlank htok]
        · rw [if_pos]
          · rfl
          · simp [blank_of_missingOrBlank hchat]
      | null =>
        simp only [parseTelegram, hobj, Option.getD_some]
        rw [if_pos hpt]
        exact bindE_err _ rfl
      | bool b =>
        simp only [parseTelegram, hobj, Option.getD_some]
        rw [if_pos hpt]
        exact bindE_err _ rfl
      | int n =>
        simp only [parseTelegram, hobj, Option.getD_some]
        rw [if_pos hpt]
        exact bindE_err _ rfl
      | float q =>
        simp only [parseTelegram, hobj, Option.getD_some]
        rw [if_pos hpt]
        exact bindE_err _ rfl
      | str s =>
        simp only [parseTelegram, hobj, Option.getD_some]
        rw [if_pos hpt]
        exact bindE_err _ rfl
      | arr xs =>
        simp only [parseTelegram, hobj, Option.getD_some]
        rw [if_pos hpt]
        exact bindE_err _ rfl

theorem parseDefaults_err (fs : List (String × JValue))
    (h : specGlobalNumericBad fs = true) : (parseDefaults fs).isOk = false := by
  unfold specGlobalNumericBad at h
  cases hgd : objGet fs "global_defaults" with
  | none =>
    rw [hgd] at h
    exact Bool.noConfusion h
  | some v =>
    rw [hgd] at h
    cases v with
    | obj gf =>
      have h' : ((numLeZero (objGet gf "interval_seconds")
            || numLeZero (objGet gf "timeout_seconds"))
            || numLeZero (objGet gf "failure_threshold")) = true := h
      simp only [Bool.or_eq_true] at h'
      have hne : gf.isEmpty = false := by
        rcases h' with (hiv | htm) | hth
        · obtain ⟨v', hv⟩ := numLeZero_isSome hiv
          exact objGet_some_nonempty hv
        · obtain ⟨v', hv⟩ := numLeZero_isSome htm
          exact objGet_some_nonempty hv
        · obtain ⟨v', hv⟩ := numLeZero_isSome hth
          exact objGet_some_nonempty hv
      have hpt : pyTruthy (.obj gf) = true := by simp [pyTruthy, hne]
      simp only [parseDefaults, hgd, Option.getD_some]
      rw [if_pos hpt]
      simp only [dictGetD, bindE_ok]
      rcases h' with (hiv | htm) | hth
      · obtain ⟨v', hv⟩ := numLeZero_isSome hiv
        rw [hv] at hiv
        obtain ⟨m, hm, hm0⟩ := pyInt_of_numLeZero hiv
        rw [hv]
        simp only [Option.getD_some]
        rw [hm, bindE_ok]
        exact bindE_err _ (require_positive_int_err _ hm0)
      · apply bindE_err2
        intro interval0 h0
        apply bindE_err2
        intro interval hreq
        obtain ⟨v', hv⟩ := numLeZero_isSome htm
        rw [hv] at htm
        obtain ⟨q, hq, hq0⟩ := pyFloat_of_numLeZero htm
        rw [hv]
        simp only [Option.getD_some]
        rw [hq, bindE_ok]
        exact bindE_err _ (require_positive_rat_err _ hq0)
      · apply bindE_err2
        intro interval0 h0
        apply bindE_err2
        intro interval hreq
        apply bindE_err2
        intro timeout0 ht0
        apply bindE_err2
        intro timeout htr
        obtain ⟨v', hv⟩ := numLeZero_isSome hth
        rw [hv] at hth
        obtain ⟨m, hm, hm0⟩ := pyInt_of_numLeZero hth
        rw [hv]
        simp only [Option.getD_some]
        rw [hm, bindE_ok]
        exact bindE_err _ (require_positive_int_err _ hm0)
    | null => exact Bool.noConfusion h
    | bool b => exact Bool.noConfusion h
    | int n => exact Bool.noConfusion h
    | float q => exact Bool.noConfusion h
    | str s => exact Bool.noConfusion h
    | arr xs => exact Bool.noConfusion h

theorem parseTarget_err_url {ifs : List (String × JValue)}
    (h : specUrlBad (pyStrip (pyStr ((objGet ifs "url").getD (.str "")))) = true)
    (d : GlobalDefaults) (idx : Nat) :
    (parseTarget d idx (.obj ifs)).isOk = false := by
  simp only [parseTarget]
  exact bindE_err _ (validate_url_err h)

theorem parseTarget_err_num {ifs : List (String × JValue)}
    (h : (numLeZero (objGet ifs "timeout_seconds")
          || numLeZero (objGet ifs "failure_threshold")) = true)
    (d : GlobalDefaults) (idx : Nat) :
    (parseTarget d idx (.obj ifs)).isOk = false := by
  simp only [parseTarget]
  apply bindE_err2
  intro url hurl
  simp only [Bool.or_eq_true] at h
  rcases h with ht | hf
  · obtain ⟨v, hv⟩ := numLeZero_isSome ht
    rw [hv] at ht
    obtain ⟨q, hq, hq0⟩ := pyFloat_of_numLeZero ht
    rw [hv]
    simp only [Option.getD_some]
    rw [hq, bindE_ok]
    exact bindE_err _ (require_positive_rat_err _ hq0)
  · apply bindE_err2
    intro timeout htimeout
    apply bindE_err2
    intro timeout' hreq
    obtain ⟨v, hv⟩ := numLeZero_isSome hf
    rw [hv] at hf
    obtain ⟨m, hm, hm0⟩ := pyInt_of_numLeZero hf
    rw [hv]
    simp only [Option.getD_some]
    rw [hm, bindE_ok]
    exact bindE_err _ (require_positive_int_err _ hm0)

theorem parseTargets_err (d : GlobalDefaults) :
    ∀ (items : List JValue) (idx : Nat) (item : JValue), item ∈ items →
      (∀ j, (parseTarget d j item).isOk = false) →
      (parseTargets d idx items).isOk = false
  | [], _, item, him, _ => absurd him (List.not_mem_nil item)
  | it0 :: rest, idx, item, him, hf => by
    rcases List.mem_cons.mp him with he | hm
    · subst he
      simp only [parseTargets]
      exact bindE_err _ (hf idx)
    · simp only [parseTargets]
      apply bindE_err2
      intro tc htc
      exact bindE_err _ (parseTargets_err d rest (idx + 1) item hm hf)

/-- Inverting the shape condition: when the target list is "missing, not
a list, or empty", the targets stage fails for any defaults. -/
theorem targetsStage_err_shape {fs : List (String × JValue)}
    (htl : specTargetsBad fs = true) (d : GlobalDefaults) :
    (targetsStage d (objGet fs "targets")).isOk = false := by
  unfold specTargetsBad at htl
  cases htr : objGet fs "targets" with
  | none => rfl
  | some v =>
    rw [htr] at htl
    cases v with
    | arr items =>
      simp only [targetsStage]
      rw [if_pos (show items.isEmpty = true from htl)]
      rfl
    | null => rfl
    | bool b => rfl
    | int n => rfl
    | float q => rfl
    | str s => rfl
    | obj gs => rfl

/-- If some member of the target list fails to elaborate at every index
and under every defaults, the targets stage fails. -/
theorem targetsStage_err_member {items : List JValue} {item : JValue}
    (hm : item ∈ items) (hf : ∀ (d : GlobalDefaults) (j : Nat),
      (parseTarget d j item).isOk = false) (d : GlobalDefaults) :
    (targetsStage d (some (.arr items))).isOk = false := by
  simp only [targetsStage]
  cases hie : items.isEmpty with
  | true => rfl
  | false =>
    rw [if_neg (by simp)]
    exact parseTargets_err d items 0 item hm (hf d)

/-- If the targets stage fails for every defaults, `load_config` fails. -/
theorem load_config_err_of_targets {fs : List (String × JValue)}
    (h : ∀ d : GlobalDefaults,
      (targetsStage d (objGet fs "targets")).isOk = false) :
    (load_config (.obj fs)).isOk = false := by
  simp only [load_config]
  apply bindE_err2
  intro tel _
  apply bindE_err2
  intro d _
  exact bindE_err _ (h d)

theorem specTargetUrlBad_inv {fs : List (String × JValue)}
    (h : specTargetUrlBad fs = true) :
    ∃ items, objGet fs "targets" = some (.arr items) ∧
      ∃ ifs, (JValue.obj ifs) ∈ items ∧
        specUrlBad (pyStrip (pyStr ((objGet ifs "url").getD (.str "")))) = true := by
  unfold specTargetUrlBad at h
  cases htr : objGet fs "targets" with
  | none =>
    rw [htr] at h
    exact Bool.noConfusion h
  | some v =>
    rw [htr] at h
    cases v with
    | arr items =>
      refine ⟨items, rfl, ?_⟩
      have h' : items.any specTargetUrlBadItem = true := h
      obtain ⟨item, hmem, hbad⟩ := List.any_eq_true.mp h'
      cases item with
      | obj ifs =>
        refine ⟨ifs, hmem, ?_⟩
        exact hbad
      | null => exact Bool.noConfusion hbad
      | bool b => exact Bool.noConfusion hbad
      | int n => exact Bool.noConfusion hbad
      | float q => exact Bool.noConfusion hbad
      | str s => exact Bool.noConfusion hbad
      | arr ys => exact Bool.noConfusion hbad
    | null => exact Bool.noConfusion h
    | bool b => exact Bool.noConfusion h
    | int n => exact Bool.noConfusion h
    | float q => exact Bool.noConfusion h
    | str s => exact Bool.noConfusion h
    | obj gs => exact Bool.noConfusion h

theorem specTargetNumericBad_inv {fs : List (String × JValue)}
    (h : specTargetNumericBad fs = true) :
    ∃ items, objGet fs "targets" = some (.arr items) ∧
      ∃ ifs, (JValue.obj ifs) ∈ items ∧
        (numLeZero (objGet ifs "timeout_seconds")
          || numLeZero (objGet ifs "failure_threshold")) = true := by
  unfold specTargetNumericBad at h
  cases htr : objGet fs "targets" with
  | none =>
    rw [htr] at h
    exact Bool.noConfusion h
  | some v =>
    rw [htr] at h
    cases v with
    | arr items =>
      refine ⟨items, rfl, ?_⟩
      have h' : items.any specTargetNumericBadItem = true := h
      obtain ⟨item, hmem, hbad⟩ := List.any_eq_true.mp h'
      cases item with
      | obj ifs =>
        refine ⟨ifs, hmem, ?_⟩
        exact hbad
      | null => exact Bool.noConfusion hbad
      | bool b => exact Bool.noConfusion hbad
      | int n => exact Bool.noConfusion hbad
      | float q => exact Bool.noConfusion hbad
      | str s => exact Bool.noConfusion hbad
      | arr ys => exact Bool.noConfusion hbad
    | null => exact Bool.noConfusion h
    | bool b => exact Bool.noConfusion h
    | int n => exact Bool.noConfusion h
    | float q => exact Bool.noConfusion h
    | str s => exact Bool.noConfusion h
    | obj gs => exact Bool.noConfusion h

/-- The failure direction of claim C8: each of the failure conditions
photographed from the spec makes `load_config` fail. -/
theorem load_config_rejects (raw : JValue) (h : specRejects raw = true) :
    (load_config raw).isOk = false := by
  cases raw with
  | obj fs =>
    have h' : ((((specCredentialsBad fs || specTargetsBad fs)
        || specTargetUrlBad fs) || specGlobalNumericBad fs)
        || specTargetNumericBad fs) = true := h
    simp only [Bool.or_eq_true] at h'
    rcases h' with (((hcred | htl) | hurl) | hgn) | htn
    · simp only [load_config]
      exact bindE_err _ (parseTelegram_err fs hcred)
    · exact load_config_err_of_targets (targetsStage_err_shape htl)
    · obtain ⟨items, htr, ifs, hmem, hbad⟩ := specTargetUrlBad_inv hurl
      apply load_config_err_of_targets
      intro d
      rw [htr]
      exact targetsStage_err_member hmem
        (fun d j => parseTarget_err_url hbad d j) d
    · simp only [load_config]
      apply bindE_err2
      intro tel _
      exact bindE_err _ (parseDefaults_err fs hgn)
    · obtain ⟨items, htr, ifs, hmem, hbad⟩ := specTargetNumericBad_inv htn
      apply load_config_err_of_targets
      intro d
      rw [htr]
      exact targetsStage_err_member hmem
        (fun d j => parseTarget_err_num hbad d j) d
  | null => simp [specRejects] at h
  | bool b => simp [specRejects] at h
  | int n => simp [specRejects] at h
  | float q => simp [specRejects] at h
  | str s => simp [specRejects] at h
  | arr xs => simp [specRejects] at h


theorem specStrFieldOk_inv {o : Option JValue} (h : specStrFieldOk o = true) :
    ∃ s, o = some (.str s) ∧ (pyStrip s).isEmpty = false := by
  cases o with
  | none => exact Bool.noConfusion h
  | some v =>
    cases v with
    | str s =>
      refine ⟨s, rfl, ?_⟩
      have hb : (!((pyStrip s).isEmpty)) = true := h
      simpa using hb
    | null => exact Bool.noConfusion h
    | bool b => exact Bool.noConfusion h
    | int n => exact Bool.noConfusion h
    | float q => exact Bool.noConfusion h
    | arr xs => exact Bool.noConfusion h
    | obj gs => exact Bool.noConfusion h

theorem specUrlFieldOk_inv {o : Option JValue} (h : specUrlFieldOk o = true) :
    ∃ u, o = some (.str u) ∧ specUrlOk (pyStrip u) = true := by
  cases o with
  | none => exact Bool.noConfusion h
  | some v =>
    cases v with
    | str u => exact ⟨u, rfl, h⟩
    | null => exact Bool.noConfusion h
    | bool b => exact Bool.noConfusion h
    | int n => exact Bool.noConfusion h
    | float q => exact Bool.noConfusion h
    | arr xs => exact Bool.noConfusion h
    | obj gs => exact Bool.noConfusion h

/-- A well-formed integral field converts with `int(...)` to a positive
integer (the default applying when the field is absent). -/
theorem pyInt_field_ok {o : Option JValue} (h : specIntFieldOk o = true)
    (dflt : Int) (hd : 0 < dflt) :
    ∃ n, pyInt (o.getD (.int dflt)) = .ok n ∧ 0 < n := by
  cases o with
  | none => exact ⟨dflt, rfl, hd⟩
  | some v =>
    cases v with
    | int n =>
      refine ⟨n, rfl, ?_⟩
      exact of_decide_eq_true h
    | null => exact Bool.noConfusion h
    | bool b => exact Bool.noConfusion h
    | float q => exact Bool.noConfusion h
    | str s => exact Bool.noConfusion h
    | arr xs => exact Bool.noConfusion h
    | obj gs => exact Bool.noConfusion h

/-- A well-formed numeric field converts with `float(...)` to a positive
rational (the default applying when the field is absent). -/
theorem pyFloat_field_ok {o : Option JValue} (h : specNumFieldOk o = true)
    (dflt : JValue) (hq : ∃ q0, pyFloat dflt = .ok q0 ∧ 0 < q0) :
    ∃ q, pyFloat (o.getD dflt) = .ok q ∧ 0 < q := by
  cases o with
  | none => exact hq
  | some v =>
    cases v with
    | int n =>
      refine ⟨(n : Rat), rfl, ?_⟩
      have hn : 0 < n := of_decide_eq_true h
      exact_mod_cast hn
    | float q =>
      refine ⟨q, rfl, ?_⟩
      exact of_decide_eq_true h
    | null => exact Bool.noConfusion h
    | bool b => exact Bool.noConfusion h
    | str s => exact Bool.noConfusion h
    | arr xs => exact Bool.noConfusion h
    | obj gs => exact Bool.noConfusion h

/-- Well-formed credentials load into a `TelegramConfig`. -/
theorem parseTelegram_ok (fs : List (String × JValue))
    (h : specWellFormedCredentials fs = true) :
    ∃ tel, parseTelegram fs = .ok tel := by
  unfold specWellFormedCredentials at h
  cases hobj : objGet fs "telegram" with
  | none =>
    rw [hobj] at h
    exact Bool.noConfusion h
  | some v =>
    rw [hobj] at h
    cases v with
    | obj tf =>
      have h' : (specStrFieldOk (objGet tf "bot_token")
          && specStrFieldOk (objGet tf "chat_id")) = true := h
      simp only [Bool.and_eq_true] at h'
      obtain ⟨s1, hb1, hs1⟩ := specStrFieldOk_inv h'.1
      obtain ⟨s2, hb2, hs2⟩ := specStrFieldOk_inv h'.2
      have hpt : pyTruthy (.obj tf) = true := by
        simp [pyTruthy, objGet_some_nonempty hb1]
      simp only [parseTelegram, hobj, Option.getD_some]
      rw [if_pos hpt]
      simp only [dictGetD, bindE_ok]
      rw [hb1, hb2]
      simp only [Option.getD_some, pyStr]
      rw [if_neg (by simp [hs1, hs2])]
      exact ⟨_, rfl⟩
    | null => exact Bool.noConfusion h
    | bool b => exact Bool.noConfusion h
    | int n => exact Bool.noConfusion h
    | float q => exact Bool.noConfusion h
    | str s => exact Bool.noConfusion h
    | arr xs => exact Bool.noConfusion h

/-- Well-formed (or absent/falsy) global defaults load into positive
`GlobalDefaults`. -/
theorem parseDefaults_ok (fs : List (String × JValue))
    (h : specWellFormedDefaults fs = true) :
    ∃ d, parseDefaults fs = .ok d ∧ 0 < d.interval_seconds ∧
      0 < d.timeout_seconds ∧ 0 < d.failure_threshold := by
  unfold specWellFormedDefaults at h
  cases hgd : objGet fs "global_defaults" with
  | none =>
    refine ⟨⟨60, 5, 1⟩, ?_, by norm_num, by norm_num, by norm_num⟩
    simp only [parseDefaults, hgd]
    rfl
  | some v =>
    rw [hgd] at h
    cases v with
    | obj gf =>
      have h' : ((specIntFieldOk (objGet gf "interval_seconds")
          && specNumFieldOk (objGet gf "timeout_seconds"))
          && specIntFieldOk (objGet gf "failure_threshold")) = true := h
      simp only [Bool.and_eq_true] at h'
      obtain ⟨⟨h1, h2⟩, h3⟩ := h'
      cases hgfe : gf.isEmpty with
      | true =>
        have : gf = [] := List.isEmpty_iff.mp hgfe
        subst this
        refine ⟨⟨60, 5, 1⟩, ?_, by norm_num, by norm_num, by norm_num⟩
        simp only [parseDefaults, hgd, Option.getD_some]
        rw [if_neg (by decide)]
        rfl
      | false =>
        have hpt : pyTruthy (.obj gf) = true := by simp [pyTruthy, hgfe]
        obtain ⟨ni, hni, hni0⟩ := pyInt_field_ok h1 60 (by norm_num)
        obtain ⟨qt, hqt, hqt0⟩ :=
          pyFloat_field_ok h2 (.int 5) ⟨((5 : Int) : Rat), rfl, by norm_num⟩
        obtain ⟨nt, hnt, hnt0⟩ := pyInt_field_ok h3 1 (by norm_num)
        refine ⟨⟨ni, qt, nt⟩, ?_, hni0, hqt0, hnt0⟩
        simp only [parseDefaults, hgd, Option.getD_some]
        rw [if_pos hpt]
        simp only [dictGetD, bindE_ok]
        rw [hni, bindE_ok, require_positive_int_ok _ hni0, bindE_ok,
          hqt, bindE_ok, require_positive_rat_ok _ hqt0, bindE_ok,
          hnt, bindE_ok, require_positive_int_ok _ hnt0, bindE_ok]
    | null =>
      refine ⟨⟨60, 5, 1⟩, ?_, by norm_num, by norm_num, by norm_num⟩
      simp only [parseDefaults, hgd, Option.getD_some]
      rw [if_neg (by decide)]
      rfl
    | bool b =>
      have hb : (!(pyTruthy (JValue.bool b))) = true := h
      refine ⟨⟨60, 5, 1⟩, ?_, by norm_num, by norm_num, by norm_num⟩
      simp only [parseDefaults, hgd, Option.getD_some]
      rw [if_neg (by simpa using hb)]
      rfl
    | int n =>
      have hb : (!(pyTruthy (JValue.int n))) = true := h
      refine ⟨⟨60, 5, 1⟩, ?_, by norm_num, by norm_num, by norm_num⟩
      simp only [parseDefaults, hgd, Option.getD_some]
      rw [if_neg (by simpa using hb)]
      rfl
    | float q =>
      have hb : (!(pyTruthy (JValue.float q))) = true := h
      refine ⟨⟨60, 5, 1⟩, ?_, by norm_num, by norm_num, by norm_num⟩
      simp only [parseDefaults, hgd, Option.getD_some]
      rw [if_neg (by simpa using hb)]
      rfl
    | str s =>
      have hb : (!(pyTruthy (JValue.str s))) = true := h
      refine ⟨⟨60, 5, 1⟩, ?_, by norm_num, by norm_num, by norm_num⟩
      simp only [parseDefaults, hgd, Option.getD_some]
      rw [if_neg (by simpa using hb)]
      rfl
    | arr xs =>
      have hb : (!(pyTruthy (JValue.arr xs))) = true := h
      refine ⟨⟨60, 5, 1⟩, ?_, by norm_num, by norm_num, by norm_num⟩
      simp only [parseDefaults, hgd, Option.getD_some]
      rw [if_neg (by simpa using hb)]
      rfl

/-- A well-formed target entry elaborates under positive defaults. -/
theorem parseTarget_ok {item : JValue} (h : specWellFormedTarget item = true)
    (d : GlobalDefaults) (hdt : 0 < d.timeout_seconds)
    (hdf : 0 < d.failure_threshold) (idx : Nat) :
    ∃ tc, parseTarget d idx item = .ok tc := by
  cases item with
  | obj ifs =>
    have h' : ((specUrlFieldOk (objGet ifs "url")
        && specNumFieldOk (objGet ifs "timeout_seconds"))
        && specIntFieldOk (objGet ifs "failure_threshold")) = true := h
    simp only [Bool.and_eq_true] at h'
    obtain ⟨⟨h1, h2⟩, h3⟩ := h'
    obtain ⟨u, hu, hvu⟩ := specUrlFieldOk_inv h1
    obtain ⟨qt, hqt, hqt0⟩ :=
      pyFloat_field_ok h2 (.float d.timeout_seconds) ⟨d.timeout_seconds, rfl, hdt⟩
    obtain ⟨nt, hnt, hnt0⟩ := pyInt_field_ok h3 d.failure_threshold hdf
    simp only [parseTarget]
    rw [hu]
    simp only [Option.getD_some, pyStr]
    rw [validate_url_ok hvu, bindE_ok, hqt, bindE_ok,
      require_positive_rat_ok _ hqt0, bindE_ok, hnt, bindE_ok,
      require_positive_int_ok _ hnt0, bindE_ok]
    exact ⟨_, rfl⟩
  | null => exact Bool.noConfusion h
  | bool b => exact Bool.noConfusion h
  | int n => exact Bool.noConfusion h
  | float q => exact Bool.noConfusion h
  | str s => exact Bool.noConfusion h
  | arr xs => exact Bool.noConfusion h

/-- A list of well-formed target entries elaborates under positive
defaults, from any starting index. -/
theorem parseTargets_ok (d : GlobalDefaults) (hdt : 0 < d.timeout_seconds)
    (hdf : 0 < d.failure_threshold) :
    ∀ (items : List JValue) (idx : Nat),
      (∀ item ∈ items, specWellFormedTarget item = true) →
      ∃ tcs, parseTargets d idx items = .ok tcs
  | [], _, _ => ⟨[], rfl⟩
  | item :: rest, idx, hall => by
    obtain ⟨tc, htc⟩ := parseTarget_ok (hall item (List.mem_cons_self item rest))
      d hdt hdf idx
    obtain ⟨tcs, htcs⟩ := parseTargets_ok d hdt hdf rest (idx + 1)
      (fun it hit => hall it (List.mem_cons_of_mem item hit))
    refine ⟨tc :: tcs, ?_⟩
    simp only [parseTargets]
    rw [htc, bindE_ok, htcs, bindE_ok]

theorem specTargetsListOk_inv {o : Option JValue} (h : specTargetsListOk o = true) :
    ∃ items, o = some (.arr items) ∧ items.isEmpty = false ∧
      ∀ item ∈ items, specWellFormedTarget item = true := by
  cases o with
  | none => exact Bool.noConfusion h
  | some v =>
    cases v with
    | arr items =>
      have h' : (!(items.isEmpty) && items.all specWellFormedTarget) = true := h
      simp only [Bool.and_eq_true] at h'
      refine ⟨items, rfl, by simpa using h'.1, ?_⟩
      exact fun item hit => List.all_eq_true.mp h'.2 item hit
    | null => exact Bool.noConfusion h
    | bool b => exact Bool.noConfusion h
    | int n => exact Bool.noConfusion h
    | float q => exact Bool.noConfusion h
    | str s => exact Bool.noConfusion h
    | obj gs => exact Bool.noConfusion h

/-- The success direction of the amended claim C8: the acceptance guard
makes `load_config` return a snapshot. -/
theorem load_config_accepts (raw : JValue) (h : specAccepts raw = true) :
    (load_config raw).isOk = true := by
  cases raw with
  | obj fs =>
    have h' : ((specWellFormedCredentials fs && specWellFormedDefaults fs)
        && specTargetsListOk (objGet fs "targets")) = true := h
    simp only [Bool.and_eq_true] at h'
    obtain ⟨⟨hc, hd⟩, ht⟩ := h'
    obtain ⟨tel, htel⟩ := parseTelegram_ok fs hc
    obtain ⟨d, hdef, _, hdt, hdf⟩ := parseDefaults_ok fs hd
    obtain ⟨items, htr, hne, hall⟩ := specTargetsListOk_inv ht
    obtain ⟨tcs, htcs⟩ := parseTargets_ok d hdt hdf items 0 hall
    simp only [load_config]
    rw [htel, bindE_ok, hdef, bindE_ok, htr]
    simp only [targetsStage]
    rw [if_neg (by simp [hne]), htcs, bindE_ok]
    rfl
  | null => exact Bool.noConfusion h
  | bool b => exact Bool.noConfusion h
  | int n => exact Bool.noConfusion h
  | float q => exact Bool.noConfusion h
  | str s => exact Bool.noConfusion h
  | arr xs => exact Bool.noConfusion h

end Config


namespace Config

open PyJson Checker Spec

theorem parseTelegram_cons (v : JValue) (fields : List (String × JValue)) :
    parseTelegram (("checker_name", v) :: fields) = parseTelegram fields := by
  simp only [parseTelegram]
  rw [objGet_cons_ne _ _ _ _ (by decide)]

theorem parseDefaults_cons (v : JValue) (fields : List (String × JValue)) :
    parseDefaults (("checker_name", v) :: fields) = parseDefaults fields := by
  simp only [parseDefaults]
  rw [objGet_cons_ne _ _ _ _ (by decide)]

/-- C3 (what the loader actually does): the loaded snapshot is entirely
independent of the `checker_name` key — adding a `checker_name` binding
to the document leaves `load_config`'s result unchanged, because the
loader never reads that key and `AppConfig` declares no such field.  This
is the code-side half of the claim: `run_service` in `app/main.py`
nevertheless reads `config.checker_name` (an `AttributeError` at runtime),
and the checker itself does support a label through `set_checker_name`
and `message_label`. -/
theorem c3_load_config_ignores_checker_name (v : JValue)
    (fields : List (String × JValue)) :
    load_config (.obj (("checker_name", v) :: fields))
      = load_config (.obj fields) := by
  simp only [load_config]
  rw [parseTelegram_cons, parseDefaults_cons, objGet_cons_ne _ _ _ _ (by decide)]

/-- C8 (amended): `load_config` fails whenever one of the spec's failure
conditions holds (credentials missing or blank; target list missing, not
a list, or empty; a target entry whose URL fails to parse as absolute
http/https with a host — `urlparse` raising on it included; a numeric
field `<= 0`, global or per-target); and, conversely, it returns a
configuration snapshot whenever the document is an object with
well-formed credentials, well-formed (or absent) global defaults, and a
non-empty list of well-formed target entries (each url a string parsing
as absolute http/https with a non-empty ASCII host). -/
theorem c8_load_config_contract (raw : JValue) :
    (Spec.specRejects raw = true → (load_config raw).isOk = false) ∧
    (Spec.specAccepts raw = true → (load_config raw).isOk = true) :=
  ⟨load_config_rejects raw, load_config_accepts raw⟩

/-- Counterexample to C8 as stated: a document satisfying none of the
claim's failure conditions (valid credentials, a non-empty target list,
no invalid URL among object entries, no non-positive numeric field) on
which `load_config` still fails, because a target entry is not an object
(`targets[0] must be an object`). -/
theorem c8_counterexample :
    Spec.specRejects (JValue.obj [("telegram", .obj [("bot_token", .str "tok"),
        ("chat_id", .str "42")]), ("targets", .arr [.int 5])]) = false ∧
    (load_config (JValue.obj [("telegram", .obj [("bot_token", .str "tok"),
        ("chat_id", .str "42")]), ("targets", .arr [.int 5])])).isOk = false := by
  exact ⟨by decide, by decide⟩

/-- Witness for C8: a fully well-formed document loads, and a document
with missing credentials is rejected. -/
theorem c8_load_config_contract_witness :
    (load_config (JValue.obj [("telegram", .obj [("bot_token", .str "tok"),
        ("chat_id", .str "42")]), ("targets", .arr [.obj [("name", .str "site"),
        ("url", .str "http://example.com")]])])).isOk = true ∧
    (load_config (JValue.obj [("targets", .arr [])])).isOk = false :=
  ⟨(c8_load_config_contract (JValue.obj [("telegram", .obj [("bot_token", .str "tok"),
        ("chat_id", .str "42")]), ("targets", .arr [.obj [("name", .str "site"),
        ("url", .str "http://example.com")]])])).2 (by decide),
   (c8_load_config_contract (JValue.obj [("targets", .arr [])])).1 (by decide)⟩

end Config


namespace Checker

/-- C7: the probe classifies a final response as ok exactly when the
status is 200 (with reason `status_code=200`); any other status yields
`(false, "status_code=<N>")`; any exception during the request yields
`(false, "<Type>: <message>")`.  Being a total function of the outcome,
the probe itself never raises. -/
theorem c7_probe_classification :
    (∀ status : Int, (requestStatus (.response status)).1 = true ↔ status = 200) ∧
    requestStatus (.response 200) = (true, "status_code=200") ∧
    (∀ status : Int, status ≠ 200 →
      requestStatus (.response status) = (false, "status_code=" ++ toString status)) ∧
    (∀ excName msg : String,
      requestStatus (.exc excName msg) = (false, excName ++ ": " ++ msg)) := by
  refine ⟨?_, rfl, ?_, fun _ _ => rfl⟩
  · intro status
    by_cases h : status = 200 <;> simp [requestStatus, h]
  · intro status h
    simp [requestStatus, h]

/-- Witness for C7: a 503 response is classified as a failure with the
exact `status_code=` reason. -/
theorem c7_probe_classification_witness :
    requestStatus (.response 503) = (false, "status_code=" ++ toString (503 : Int)) :=
  c7_probe_classification.2.2.1 503 (by decide)

end Checker
